import Mathlib

/-!
# AndreaAI: usage metering and entitlement core

A shallow embedding of the quota and entitlement logic of `auth-system.js`
(class `AuthSystem`, `integrateAuthWithApp`) and of the chat turn controller
of `andrea-app.js` (class `AndreaApp`).

Conventions of the embedding

* A JavaScript number is `JSNum`: `NaN` or an exact integer.  The numbers this
  program handles are turn counts (literals, `++`, `parseInt` of a stored
  string, Firestore `increment`), which are exact below `2 ^ 53`.
* `localStorage` is a total key/value map (`getItem`, `setItem`, `removeItem`).
* The Firestore `users` collection is a map from uid to document, with a flag
  telling whether the remote store answers; every call made to the identity
  provider or to the document store is appended to a call log.
* Page rendering (`updateUI`, `showNotification`, modals, scrolling) only
  writes to the page and is left out; the two page facts the code reads back,
  the value of `#user-input` and the presence of `#chat-box`, are state.
* Work scheduled with `setTimeout` is kept as a list of pending responses, fired
  by a separate event.
* The case mapping of `toLowerCase` and the locale rendering of
  `toLocaleTimeString` are arguments of the functions that use them.
-/

namespace AndreaAI

/-! ## JavaScript values -/

/-- A JavaScript number as this program uses it: `NaN` or an integer. -/
inductive JSNum where
  | nan : JSNum
  | int (v : Int) : JSNum
  deriving DecidableEq, Repr

/-- The postfix increment `x++` on a number.  It is the increment of JavaScript for
integers below `2 ^ 53` in absolute value; beyond that range the code rounds to the
nearest double and this definition does not follow it, so the theorems that use it
on an arbitrary count carry the bound. -/
def JSNum.succ : JSNum → JSNum
  | .nan => .nan
  | .int v => .int (v + 1)

/-- Addition of two numbers. -/
def JSNum.add : JSNum → JSNum → JSNum
  | .int a, .int b => .int (a + b)
  | _, _ => .nan

/-- The comparison `x < m` against an integer; any comparison with `NaN` is false. -/
def JSNum.lt : JSNum → Int → Bool
  | .nan, _ => false
  | .int v, m => decide (v < m)

/-- The comparison `x >= m` against an integer; any comparison with `NaN` is false. -/
def JSNum.ge : JSNum → Int → Bool
  | .nan, _ => false
  | .int v, m => decide (m ≤ v)

/-- The expression `x || 0` for a possibly absent numeric field: an absent field,
`NaN` and `0` are falsy. -/
def JSNum.orZero : Option JSNum → JSNum
  | some (.int v) => .int v
  | _ => .int 0

/-- The conversion `String(x)` of a number, used by `localStorage.setItem`. -/
def JSNum.toJSString : JSNum → String
  | .nan => "NaN"
  | .int v => if v < 0 then "-" ++ Nat.repr v.natAbs else Nat.repr v.natAbs

/-- The number is `NaN` or an integer strictly between `-2 ^ 53` and `2 ^ 53`: the
range in which the numbers of JavaScript are exact integers. -/
def JSNum.Safe : JSNum → Prop
  | .nan => True
  | .int v => -(2 : Int) ^ 53 < v ∧ v < 2 ^ 53

/-- White space and line terminators of ECMAScript (`String.prototype.trim`,
the leading blanks skipped by `parseInt`, the class `\s`). -/
def isJsWhitespace (c : Char) : Bool :=
  let n := c.toNat
  n == 9 || n == 10 || n == 11 || n == 12 || n == 13 || n == 32 || n == 160 ||
  n == 0x1680 || (0x2000 ≤ n && n ≤ 0x200A) || n == 0x2028 || n == 0x2029 ||
  n == 0x202F || n == 0x205F || n == 0x3000 || n == 0xFEFF

/-- The method `String.prototype.trim`. -/
def jsTrim (s : String) : String :=
  String.mk ((s.toList.dropWhile isJsWhitespace).reverse.dropWhile isJsWhitespace).reverse

/-- The property `length` of a string: the number of UTF-16 code units. -/
def jsLength (s : String) : Nat :=
  s.toList.foldl (fun n c => n + (if 0x10000 ≤ c.toNat then 2 else 1)) 0

/-- Truthiness of the result of `getItem`: `null` and the empty string are falsy. -/
def jsTruthy : Option String → Bool
  | none => false
  | some s => !(s.toList.isEmpty)

/-- The value of a character as a digit in the given radix, if it is one. -/
def digitVal (radix : Nat) (c : Char) : Option Nat :=
  let n := c.toNat
  let v : Option Nat :=
    if 48 ≤ n ∧ n ≤ 57 then some (n - 48)
    else if 97 ≤ n ∧ n ≤ 122 then some (n - 87)
    else if 65 ≤ n ∧ n ≤ 90 then some (n - 55)
    else none
  v.filter (fun d => d < radix)

/-- A decimal digit character, `0` to `9`. -/
def IsDecDigit (c : Char) : Prop := 48 ≤ c.toNat ∧ c.toNat ≤ 57

instance : DecidablePred IsDecDigit := fun c => by
  unfold IsDecDigit
  infer_instance

/-- The sign step of `parseInt`: a leading `-` or `+` is removed. -/
def parseSign : List Char → Bool × List Char
  | '-' :: r => (true, r)
  | '+' :: r => (false, r)
  | cs => (false, cs)

/-- The radix step of `parseInt` called without a radix: `0x` or `0X` selects 16. -/
def parseRadix : List Char → Nat × List Char
  | '0' :: 'x' :: r => (16, r)
  | '0' :: 'X' :: r => (16, r)
  | cs => (10, cs)

/-- The global function `parseInt` with one argument: skip leading white space,
read a sign and a radix prefix, take the longest run of digits; no digit gives `NaN`.
The result is the one of JavaScript when the digits denote an integer below `2 ^ 53`;
a longer run is rounded by the code to the nearest double, which this definition
does not follow, so the theorems that use it on arbitrary text carry the bound. -/
def parseInt (s : String) : JSNum :=
  let cs := s.toList.dropWhile isJsWhitespace
  let (neg, cs1) := parseSign cs
  let (radix, cs2) := parseRadix cs1
  let z := cs2.takeWhile (fun c => (digitVal radix c).isSome)
  if z.isEmpty then .nan
  else
    let m : Nat := z.foldl (fun acc c => acc * radix + (digitVal radix c).getD 0) 0
    .int (if neg then -(m : Int) else (m : Int))

/-! ## Data model -/

/-- The signed-in account as the provider reports it. -/
structure User where
  uid : String
  email : String
  deriving DecidableEq, Repr

/-- A document of the `users` collection.  Server timestamps are kept as
presence flags: their values are chosen by the server. -/
structure UserDoc where
  email : String
  conversationCount : Option JSNum
  premium : Option Bool
  level : Option String
  premiumPlan : Option String
  createdAt : Bool
  lastLogin : Bool
  lastActivity : Bool
  premiumSince : Bool
  deriving DecidableEq, Repr

/-- A call made to the identity provider or to the document store. -/
inductive Call where
  | createUser (email password : String)
  | signIn (email password : String)
  | signOut
  | docGet (uid : String)
  | docSet (uid : String)
  | docUpdate (uid : String)
  deriving DecidableEq, Repr

/-- What the `AuthSystem` talks to: the browser local store, the remote
`users` collection, whether the remote store answers, and the log of calls. -/
structure Env where
  localStorage : String → Option String
  db : String → Option UserDoc
  dbOnline : Bool
  calls : List Call

/-- The fields of an `AuthSystem` instance. -/
structure AuthSystem where
  user : Option User
  conversationCount : JSNum
  maxFreeConversations : Int
  isPremium : Bool
  authInitialized : Bool
  deriving DecidableEq, Repr

/-- An entry of `AndreaApp.messages`. -/
structure Message where
  sender : String
  content : String
  timestamp : Nat
  deriving DecidableEq, Repr

/-- The page: `window.authSystem` (absent when the auth script did not run),
its environment, the `AndreaApp` fields `messages` and `isTyping`, the value of
`#user-input`, the presence of `#chat-box`, and the responses scheduled with
`setTimeout` that have not fired yet. -/
structure World where
  authSystem : Option AuthSystem
  env : Env
  messages : List Message
  isTyping : Bool
  userInput : String
  chatBox : Bool
  timers : List String

/-- The local store key of the guest turn count. -/
def guestKey : String := "andrea_guest_conversations"

/-- The local store key of the backup count. -/
def backupKey : String := "andrea_backup_count"

/-! ## Local store and document store -/

/-- The call `localStorage.getItem(key)`. -/
def Env.getItem (e : Env) (key : String) : Option String :=
  e.localStorage key

/-- The call `localStorage.setItem(key, value)`. -/
def Env.setItem (e : Env) (key value : String) : Env :=
  { e with localStorage := fun k => if k = key then some value else e.localStorage k }

/-- The call `localStorage.removeItem(key)`. -/
def Env.removeItem (e : Env) (key : String) : Env :=
  { e with localStorage := fun k => if k = key then none else e.localStorage k }

/-- Append a call to the log. -/
def Env.record (e : Env) (c : Call) : Env :=
  { e with calls := e.calls ++ [c] }

/-- The call `doc(uid).get()`: `none` when the store does not answer, otherwise the
snapshot (`some none` when the document does not exist). -/
def Env.docGet (e : Env) (uid : String) : Option (Option UserDoc) × Env :=
  let e1 := e.record (.docGet uid)
  if e.dbOnline then (some (e.db uid), e1) else (none, e1)

/-- The call `doc(uid).set(data)`: replaces the document; the error code on failure. -/
def Env.docSet (e : Env) (uid : String) (data : UserDoc) : Option String × Env :=
  let e1 := e.record (.docSet uid)
  if e.dbOnline then
    (none, { e1 with db := fun k => if k = uid then some data else e.db k })
  else (some "unavailable", e1)

/-- The call `doc(uid).update(changes)`: fails when the store does not answer and
when the document does not exist; the error code on failure. -/
def Env.docUpdate (e : Env) (uid : String) (f : UserDoc → UserDoc) : Option String × Env :=
  let e1 := e.record (.docUpdate uid)
  if e.dbOnline then
    match e.db uid with
    | some d => (none, { e1 with db := fun k => if k = uid then some (f d) else e.db k })
    | none => (some "not-found", e1)
  else (some "unavailable", e1)

/-- The field transform `FieldValue.increment(n)`: adds to a numeric field, and sets
a missing field to the operand. -/
def fieldIncrement (n : JSNum) : Option JSNum → Option JSNum
  | some x => some (x.add n)
  | none => some n

/-- The document written by `set` in `loadUserData` and in `register`. -/
def newUserDoc (email : String) : UserDoc :=
  { email := email, conversationCount := some (.int 0), premium := some false,
    level := some "registered", premiumPlan := none,
    createdAt := true, lastLogin := true, lastActivity := false, premiumSince := false }

/-! ## AuthSystem -/

/-- The method `AuthSystem.canChat`. -/
def AuthSystem.canChat (a : AuthSystem) : Bool :=
  if a.user.isSome || a.isPremium then true
  else a.conversationCount.lt a.maxFreeConversations

/-- The method `AuthSystem.loadLocalConversationCount`.  The local store of the
embedding does not throw, so the `catch` branch, which sets the count to 0, is not
reached. -/
def AuthSystem.loadLocalConversationCount (a : AuthSystem) (e : Env) : AuthSystem :=
  let savedCount := e.getItem guestKey
  { a with conversationCount :=
      if jsTruthy savedCount then parseInt (savedCount.getD "") else .int 0 }

/-- The method `AuthSystem.loadUserData`.  A failed `get` or `set` is the `catch`
branch, which falls back to `loadLocalConversationCount`. -/
def AuthSystem.loadUserData (a : AuthSystem) (e : Env) : AuthSystem × Env :=
  match a.authInitialized, a.user with
  | true, some u =>
    match e.docGet u.uid with
    | (none, e1) => (a.loadLocalConversationCount e1, e1)
    | (some (some data), e1) =>
      ({ a with conversationCount := JSNum.orZero data.conversationCount,
                isPremium := data.premium.getD false }, e1)
    | (some none, e1) =>
      match e1.docSet u.uid (newUserDoc u.email) with
      | (none, e2) => (a, e2)
      | (some _, e2) => (a.loadLocalConversationCount e2, e2)
  | _, _ => (a, e)

/-- The method `AuthSystem.incrementConversationCount`.  A failed `update` is the
`catch` branch, which writes the in-memory count under the backup key. -/
def AuthSystem.incrementConversationCount (a : AuthSystem) (e : Env) : AuthSystem × Env :=
  let a1 := { a with conversationCount := a.conversationCount.succ }
  match a1.user, a1.authInitialized with
  | some u, true =>
    match e.docUpdate u.uid (fun d =>
        { d with conversationCount := fieldIncrement (.int 1) d.conversationCount,
                 lastActivity := true }) with
    | (none, e1) => (a1, e1)
    | (some _, e1) => (a1, e1.setItem backupKey a1.conversationCount.toJSString)
  | _, _ => (a1, e.setItem guestKey a1.conversationCount.toJSString)

/-- The value returned by `getErrorMessage`: a message of the table, or what the
lookup `messages[errorCode]` finds on `Object.prototype` for a member name. -/
inductive ErrorMessage where
  | text (s : String)
  | inherited (member : String)
  deriving DecidableEq, Repr

/-- The table `messages` of `getErrorMessage`. -/
def errorMessages : List (String × String) :=
  [("auth/email-already-in-use", "Este correo ya está registrado"),
   ("auth/invalid-email", "Correo electrónico inválido"),
   ("auth/operation-not-allowed", "Operación no permitida"),
   ("auth/weak-password", "La contraseña debe tener al menos 6 caracteres"),
   ("auth/user-disabled", "Esta cuenta ha sido deshabilitada"),
   ("auth/user-not-found", "Usuario no encontrado"),
   ("auth/wrong-password", "Contraseña incorrecta"),
   ("auth/too-many-requests", "Demasiados intentos. Intenta más tarde"),
   ("auth/network-request-failed", "Error de red. Verifica tu conexión"),
   ("auth/requires-recent-login", "Por favor, vuelve a iniciar sesión")]

/-- The member names every object literal inherits from `Object.prototype`; a
lookup under one of them yields a truthy value that is not a message. -/
def objectPrototypeMembers : List String :=
  ["constructor", "hasOwnProperty", "isPrototypeOf", "propertyIsEnumerable",
   "toLocaleString", "toString", "valueOf", "__proto__", "__defineGetter__",
   "__defineSetter__", "__lookupGetter__", "__lookupSetter__"]

/-- The fallback message of `getErrorMessage`. -/
def unknownErrorMessage : String := "Error desconocido. Intenta de nuevo."

/-- The method `AuthSystem.getErrorMessage`; an error without a code is looked up
under the key `undefined`. -/
def getErrorMessage (errorCode : Option String) : ErrorMessage :=
  let key := errorCode.getD "undefined"
  match errorMessages.lookup key with
  | some m => if m.toList.isEmpty then .text unknownErrorMessage else .text m
  | none =>
    if objectPrototypeMembers.contains key then .inherited key
    else .text unknownErrorMessage

/-- A character of the class `[^\s@]`. -/
def emailClass (c : Char) : Bool :=
  !isJsWhitespace c && c != '@'

/-- The inputs left after each way of matching `[^\s@]+` at the head of the input. -/
def plusRemainders : List Char → List (List Char)
  | [] => []
  | c :: cs => if emailClass c then cs :: plusRemainders cs else []

/-- The input left after matching one literal character at the head of the input. -/
def expectChar (ch : Char) : List Char → List (List Char)
  | [] => []
  | c :: cs => if c = ch then [cs] else []

/-- The method `AuthSystem.validateEmail`: the test of
`/^[^\s@]+@[^\s@]+\.[^\s@]+$/`, as the set of inputs left by every way of matching
the pattern from the start, one of which must be empty. -/
def validateEmail (email : String) : Bool :=
  (((((plusRemainders email.toList).flatMap (expectChar '@')).flatMap plusRemainders).flatMap
    (expectChar '.')).flatMap plusRemainders).any List.isEmpty

/-- The object returned by `register` and `login`. -/
structure AuthResult where
  success : Bool
  user : Option User
  error : Option ErrorMessage
  deriving DecidableEq, Repr

/-- A failed `AuthResult`. -/
def AuthResult.failure (m : ErrorMessage) : AuthResult :=
  { success := false, user := none, error := some m }

/-- The part of `register` that follows account creation: write the new document,
then migrate the guest count when the guest key holds a truthy value and clear the
key.  The result is the code of the error thrown, if any. -/
def createDocumentAndMigrate (e : Env) (user : User) (email : String) :
    Option (Option String) × Env :=
  match e.docSet user.uid (newUserDoc email) with
  | (some code, e1) => (some (some code), e1)
  | (none, e1) =>
    let localCount := e1.getItem guestKey
    if jsTruthy localCount then
      match e1.docUpdate user.uid (fun d =>
          { d with conversationCount :=
              fieldIncrement (parseInt (localCount.getD "")) d.conversationCount }) with
      | (some code, e2) => (some (some code), e2)
      | (none, e2) => (none, e2.removeItem guestKey)
    else (none, e1)

/-- The method `AuthSystem.register`.  The argument `reply` is the answer of the
provider to `createUserWithEmailAndPassword`: the new user, or the code of the
error.  The method assigns no field of the `AuthSystem`. -/
def AuthSystem.register (a : AuthSystem) (e : Env) (reply : Except (Option String) User)
    (email password : String) : AuthResult × Env :=
  if !a.authInitialized then
    (AuthResult.failure (.text "Firebase no está inicializado"), e)
  else if !validateEmail email then
    (AuthResult.failure (.text "Correo inválido"), e)
  else if jsLength password < 6 then
    (AuthResult.failure (.text "Contraseña muy corta"), e)
  else
    let e1 := e.record (.createUser email password)
    match reply with
    | .error code => (AuthResult.failure (getErrorMessage code), e1)
    | .ok user =>
      match createDocumentAndMigrate e1 user email with
      | (some code, e2) => (AuthResult.failure (getErrorMessage code), e2)
      | (none, e2) => ({ success := true, user := some user, error := none }, e2)

/-- How the page finds the Firebase SDK when the `AuthSystem` is constructed: the
global `firebase` is undefined, or its initialisation throws before
`authInitialized` is set, or it is ready. -/
inductive FirebaseStartup where
  | missing
  | failing
  | ready
  deriving DecidableEq, Repr

/-- The method `AuthSystem.init`.  With Firebase ready it sets `authInitialized` and
subscribes the auth-state callback, which fires later; in the other two cases it
returns after a notification.  It does not read the local store. -/
def AuthSystem.init (a : AuthSystem) (fb : FirebaseStartup) : AuthSystem :=
  match fb with
  | .missing => a
  | .failing => a
  | .ready => { a with authInitialized := true }

/-- The constructor of `AuthSystem`: the initial fields, then `init`. -/
def AuthSystem.constructor (fb : FirebaseStartup) : AuthSystem :=
  AuthSystem.init
    { user := none, conversationCount := .int 0, maxFreeConversations := 3,
      isPremium := false, authInitialized := false } fb

/-- The callback that `checkAuthState` passes to `onAuthStateChanged`: with a user it
stores the user and loads the account data, with no user it clears the user and
loads the local count. -/
def AuthSystem.onAuthStateChanged (a : AuthSystem) (e : Env) (user : Option User) :
    AuthSystem × Env :=
  match user with
  | some u => AuthSystem.loadUserData { a with user := some u } e
  | none => (AuthSystem.loadLocalConversationCount { a with user := none } e, e)

/-- The method `AuthSystem.login`.  The argument `reply` is the answer of the provider
to `signInWithEmailAndPassword`.  The method assigns no field of the `AuthSystem`. -/
def AuthSystem.login (a : AuthSystem) (e : Env) (reply : Except (Option String) User)
    (email password : String) : AuthResult × Env :=
  if !a.authInitialized then
    (AuthResult.failure (.text "Firebase no está inicializado"), e)
  else
    let e1 := e.record (.signIn email password)
    match reply with
    | .error code => (AuthResult.failure (getErrorMessage code), e1)
    | .ok user =>
      match e1.docUpdate user.uid (fun d => { d with lastLogin := true }) with
      | (some code, e2) => (AuthResult.failure (getErrorMessage (some code)), e2)
      | (none, e2) => ({ success := true, user := some user, error := none }, e2)

/-- The method `AuthSystem.logout`: the call of `signOut`, whose outcome only decides
the notification shown.  The method assigns no field of the `AuthSystem`. -/
def AuthSystem.logout (a : AuthSystem) (e : Env) : Env :=
  if !a.authInitialized then e else e.record .signOut

/-- The method `AuthSystem.upgradeToPremium`, as the effect of the callback it
schedules: `isPremium` is set, and for a signed-in user the document is updated
(the update is not awaited and its failure is not handled). -/
def AuthSystem.upgradeToPremium (a : AuthSystem) (e : Env) (plan : String) :
    AuthSystem × Env :=
  let a1 := { a with isPremium := true }
  match a1.user, a1.authInitialized with
  | some u, true =>
    (a1, (e.docUpdate u.uid (fun d =>
      { d with premium := some true, premiumSince := true, premiumPlan := some plan })).2)
  | _, _ => (a1, e)

/-- The `onclick` handler of `#submit-register` in `showAuthModal`: the email field is
trimmed, the checks run in order, and `register` is called only when all pass
(`none` when the handler returns before calling it). -/
def AuthSystem.submitRegister (a : AuthSystem) (e : Env)
    (reply : Except (Option String) User) (emailField password confirm : String) :
    Option AuthResult × Env :=
  let email := jsTrim emailField
  if email.toList.isEmpty || password.toList.isEmpty || confirm.toList.isEmpty then (none, e)
  else if !validateEmail email then (none, e)
  else if password != confirm then (none, e)
  else if jsLength password < 6 then (none, e)
  else (some (a.register e reply email password).1, (a.register e reply email password).2)

/-- The events that drive an `AuthSystem`: calls of its methods and firings of the
auth-state callback (with a user on sign-in, with none on sign-out). -/
inductive AuthEvent where
  | register (reply : Except (Option String) User) (email password : String)
  | login (reply : Except (Option String) User) (email password : String)
  | logout
  | authStateChanged (user : Option User)
  | upgradeToPremium (plan : String)
  | incrementConversationCount

/-- The effect of one event.  The auth-state callback is subscribed only when
`authInitialized` is set. -/
def AuthEvent.apply (ev : AuthEvent) (s : AuthSystem × Env) : AuthSystem × Env :=
  match ev with
  | .register reply email password => (s.1, (s.1.register s.2 reply email password).2)
  | .login reply email password => (s.1, (s.1.login s.2 reply email password).2)
  | .logout => (s.1, s.1.logout s.2)
  | .authStateChanged user =>
    if s.1.authInitialized then s.1.onAuthStateChanged s.2 user else s
  | .upgradeToPremium plan => s.1.upgradeToPremium s.2 plan
  | .incrementConversationCount => s.1.incrementConversationCount s.2

/-- A sequence of events, in order. -/
def runEvents (evs : List AuthEvent) (s : AuthSystem × Env) : AuthSystem × Env :=
  evs.foldl (fun st ev => ev.apply st) s

/-- An event other than a sign-out callback firing while `isPremium` is set, and
other than `upgradeToPremium` invoked while no user is signed in. -/
def AuthEvent.keepsPremiumSignedIn (ev : AuthEvent) (a : AuthSystem) : Bool :=
  match ev with
  | .authStateChanged none => !a.isPremium
  | .upgradeToPremium _ => a.user.isSome
  | _ => true

/-- Every event of the sequence, at the state where it happens, is other than a
sign-out callback firing while `isPremium` is set and other than `upgradeToPremium`
invoked while no user is signed in. -/
def eventsKeepPremiumSignedIn : List AuthEvent → AuthSystem × Env → Bool
  | [], _ => true
  | ev :: rest, s =>
    ev.keepsPremiumSignedIn s.1 && eventsKeepPremiumSignedIn rest (ev.apply s)

/-- The shape `local@domain.tld` in the words of the specification: no white space,
exactly one `@`, a non-empty part before the `@`, and after the `@` a part holding a
dot with at least one character before it and at least one after it. -/
def EmailShape (s : String) : Prop :=
  (∀ c ∈ s.toList, isJsWhitespace c = false) ∧
  s.toList.count '@' = 1 ∧
  ∃ loc dom : List Char, s.toList = loc ++ '@' :: dom ∧ loc ≠ [] ∧
    ∃ pre post : List Char, dom = pre ++ '.' :: post ∧ pre ≠ [] ∧ post ≠ []

/-! ## AndreaApp -/

/-- The fixed text `AndreaApp.sendMessage` shows when the turn is denied. -/
def upsellMessage : String :=
  "\n" ++
  "                🔒 **Límite alcanzado**\n" ++
  "                \n" ++
  "                Has usado tus conversaciones gratuitas. \n" ++
  "                **Regístrate para obtener acceso ilimitado:**\n" ++
  "                \n" ++
  "                • Conversaciones ilimitadas\n" ++
  "                • Exportación avanzada\n" ++
  "                • Modelos IA premium\n" ++
  "                • Historial ilimitado\n" ++
  "                \n" ++
  "                Haz clic en \"Iniciar sesión\" en la barra lateral para continuar.\n" ++
  "            "

/-- The method `AndreaApp.appendMessage`; `now` is the value of `new Date()`. -/
def World.appendMessage (w : World) (sender content : String) (now : Nat) : World :=
  if w.chatBox then
    { w with messages := w.messages ++ [{ sender := sender, content := content, timestamp := now }] }
  else w

/-- The method `AndreaApp.showTypingIndicator`. -/
def World.showTypingIndicator (w : World) : World :=
  if w.chatBox then { w with isTyping := true } else w

/-- The method `AndreaApp.sendMessage`, up to the point where it returns: the response
is left in `timers`; `now` is the value of `new Date()` during the call. -/
def World.sendMessage (w : World) (now : Nat) : World :=
  let message := jsTrim w.userInput
  if message.toList.isEmpty then w
  else
    let denied : Bool :=
      match w.authSystem with
      | some a => !a.canChat
      | none => false
    if denied then w.appendMessage "ai" upsellMessage now
    else
      let w1 := { w with userInput := "" }
      let w2 := w1.appendMessage "user" message now
      let w3 := w2.showTypingIndicator
      let w4 : World :=
        match w3.authSystem with
        | some a =>
          let r := a.incrementConversationCount w3.env
          { w3 with authSystem := some r.1, env := r.2 }
        | none => w3
      { w4 with timers := w4.timers ++ [message] }

/-- The visitor types `text` into `#user-input` and sends it at time `now`. -/
def World.submit (w : World) (turn : String × Nat) : World :=
  World.sendMessage { w with userInput := turn.1 } turn.2

/-- A sequence of submissions, in order. -/
def World.runTurns (w : World) (turns : List (String × Nat)) : World :=
  turns.foldl World.submit w

/-- The in-memory count of the page, when the auth system is present. -/
def World.count (w : World) : Option JSNum :=
  w.authSystem.map (fun a => a.conversationCount)

/-- The fixed text the wrapper installed by `integrateAuthWithApp` shows when it
denies the turn. -/
def wrapperUpsellMessage : String :=
  "\n" ++
  "                    🔒 **Límite alcanzado**\n" ++
  "                    \n" ++
  "                    Has usado tus 3 conversaciones gratuitas. \n" ++
  "                    **Regístrate para obtener acceso ilimitado:**\n" ++
  "                    \n" ++
  "                    • Conversaciones ilimitadas\n" ++
  "                    • Exportación avanzada\n" ++
  "                    • Modelos IA premium\n" ++
  "                    • Historial ilimitado\n" ++
  "                    \n" ++
  "                    Haz clic en \"Iniciar sesión\" en la barra lateral para continuar.\n" ++
  "                "

/-- The method `sendMessage` after `integrateAuthWithApp` has run.  The wrapper is
installed only when `window.authSystem` exists; it tests `canChat`, increments the
count, and then calls the original `sendMessage`. -/
def World.wrappedSendMessage (w : World) (now : Nat) : World :=
  match w.authSystem with
  | none => w.sendMessage now
  | some a =>
    if !a.canChat then w.appendMessage "ai" wrapperUpsellMessage now
    else
      let r := a.incrementConversationCount w.env
      World.sendMessage { w with authSystem := some r.1, env := r.2 } now

/-- The visitor types `text` into `#user-input` and sends it at time `now`, with the
wrapper installed. -/
def World.wrappedSubmit (w : World) (turn : String × Nat) : World :=
  World.wrappedSendMessage { w with userInput := turn.1 } turn.2

/-- The method `String.prototype.includes`: the key occurs somewhere in the text. -/
def jsIncludes (text key : String) : Bool :=
  text.toList.tails.any (fun t => key.toList.isPrefixOf t)

/-- The table `responses` of `generateResponse`, in the order of its entries. -/
def responses : List (String × String) :=
  [("quién te creó", "Fui creada por IsaDetaSeek como un sistema neural avanzado."),
   ("hola", "¡Hola! Soy AndreaAI, tu asistente neural. ¿En qué puedo ayudarte?"),
   ("ayuda", "Puedo ayudarte con: análisis de datos, mapas mentales, generación de " ++
     "contenido y más."),
   ("preset", "Puedes usar /preset [nombre] para cambiar mi personalidad."),
   ("clear", "Usa /clear para limpiar el chat."),
   ("export", "Usa /export [formato] para exportar la conversación.")]

/-- The method `AndreaApp.generateResponse`.  The case mapping of
`String.prototype.toLowerCase` is the argument `toLowerCase`. -/
def generateResponse (toLowerCase : String → String) (message : String) : String :=
  match responses.find? (fun entry => jsIncludes (toLowerCase message) entry.1) with
  | some entry => entry.2
  | none =>
    "He procesado tu mensaje: \"" ++ message ++ "\". Como sistema neural, puedo " ++
    "ayudarte con análisis, mapas mentales, generación de contenido y más. ¿Te " ++
    "gustaría que profundice en algún tema específico?"

/-- The method `AndreaApp.hideTypingIndicator`. -/
def World.hideTypingIndicator (w : World) : World :=
  { w with isTyping := false }

/-- The callback `sendMessage` schedules with `setTimeout`, for the oldest pending
response: hide the typing indicator and append the generated response; `now` is the
value of `new Date()` when it fires.  With nothing pending there is no callback. -/
def World.respond (w : World) (toLowerCase : String → String) (now : Nat) : World :=
  match w.timers with
  | [] => w
  | message :: rest =>
    World.appendMessage (World.hideTypingIndicator { w with timers := rest }) "ai"
      (generateResponse toLowerCase message) now

/-- The method `AndreaApp.clearChat`. -/
def World.clearChat (w : World) : World :=
  if w.chatBox then { w with messages := [] } else w

/-- The method `Array.prototype.join`: the elements in order, with the separator
before every element but the first. -/
def jsJoin (sep : String) : List String → String
  | [] => ""
  | x :: xs => xs.foldl (fun r y => r ++ sep ++ y) x

/-- The line `exportChat` writes for one entry; `toLocaleTimeString` renders the
timestamp in the locale of the browser. -/
def exportLine (toLocaleTimeString : Nat → String) (msg : Message) : String :=
  let sender := if msg.sender = "user" then "Usuario" else "AndreaAI"
  let time := toLocaleTimeString msg.timestamp
  "[" ++ time ++ "] " ++ sender ++ ": " ++ msg.content

/-- The method `AndreaApp.exportChat`: the text put in the downloaded file, or `none`
when there is no message and only a notification is shown.  No field is assigned. -/
def World.exportChat (w : World) (toLocaleTimeString : Nat → String) : Option String :=
  if w.messages.length = 0 then none
  else some (jsJoin "\n\n" (w.messages.map (exportLine toLocaleTimeString)))

/-- The export format in the words of the specification: one record per entry, in
order, separated by one blank line, each `[localized-time] Sender: content` with the
label `Usuario` for the sender `user` and `AndreaAI` for every other sender. -/
def exportTextSpec (localizedTime : Nat → String) (entries : List Message) : String :=
  String.intercalate "\n\n"
    (entries.map (fun entry =>
      "[" ++ localizedTime entry.timestamp ++ "] " ++
        (if entry.sender = "user" then "Usuario" else "AndreaAI") ++ ": " ++ entry.content))

/-- The `AndreaApp` right after its constructor: no message, not typing, nothing
pending; the auth system, the environment, the input and the chat box are given. -/
def World.constructed (auth : Option AuthSystem) (e : Env) (input : String)
    (chatBox : Bool) : World :=
  { authSystem := auth, env := e, messages := [], isTyping := false,
    userInput := input, chatBox := chatBox, timers := [] }

/-- The events of the chat page: a submission through the original `sendMessage`, a
submission through the wrapper, the firing of the oldest pending response, and
`clearChat`. -/
inductive PageEvent where
  | submit (turn : String × Nat)
  | wrappedSubmit (turn : String × Nat)
  | respond (now : Nat)
  | clearChat

/-- The effect of one page event. -/
def PageEvent.apply (toLowerCase : String → String) (ev : PageEvent) (w : World) : World :=
  match ev with
  | .submit turn => w.submit turn
  | .wrappedSubmit turn => w.wrappedSubmit turn
  | .respond now => w.respond toLowerCase now
  | .clearChat => w.clearChat

/-- A sequence of page events, in order. -/
def runPage (toLowerCase : String → String) (evs : List PageEvent) (w : World) : World :=
  evs.foldl (fun st ev => ev.apply toLowerCase st) w

/-! ## Sample states -/

/-- An environment with an empty local store, an empty `users` collection that
answers, and no call made. -/
def emptyEnv : Env :=
  { localStorage := fun _ => none, db := fun _ => none, dbOnline := true, calls := [] }

/-- A guest that has used no turn, with the limit of the constructor. -/
def freshGuest : AuthSystem :=
  { user := none, conversationCount := .int 0, maxFreeConversations := 3,
    isPremium := false, authInitialized := true }

/-- A guest at the limit whose `isPremium` flag is set. -/
def premiumGuestAtLimit : AuthSystem :=
  { freshGuest with conversationCount := .int 3, isPremium := true }

/-- A guest at the limit. -/
def guestAtLimit : AuthSystem :=
  { freshGuest with conversationCount := .int 3 }

/-- The account used in the examples. -/
def sampleUser : User := { uid := "u1", email := "a@b.com" }

/-- A signed-in account whose in-memory count is still the guest count 3. -/
def signedInWithGuestCount : AuthSystem :=
  { freshGuest with user := some sampleUser, conversationCount := .int 3 }

/-- A local store holding the guest count 2, with an empty `users` collection. -/
def envGuestTwo : Env := emptyEnv.setItem guestKey "2"

/-- The page has an auth system with no signed-in user, `isPremium` false, the
limit 3 and the in-memory count `j`. -/
def GuestAt (w : World) (j : Nat) : Prop :=
  ∃ a : AuthSystem, w.authSystem = some a ∧ a.user = none ∧ a.isPremium = false ∧
    a.maxFreeConversations = 3 ∧ a.conversationCount = .int (j : Int)

/-- The guest invariant of the page: no user, `isPremium` false, limit 3, an
in-memory count `j` between 0 and 3, and a guest key that either still holds what it
held at the start, `start`, while the count is 0, or holds the rendering of `j`. -/
def GuestWithin (start : Option String) (w : World) : Prop :=
  ∃ j : Nat, GuestAt w j ∧ j ≤ 3 ∧
    ((j = 0 ∧ w.env.getItem guestKey = start) ∨
      w.env.getItem guestKey = some (JSNum.int (j : Int)).toJSString)

/-- A page with a chat box and the given auth system, input and environment. -/
def pageWith (a : AuthSystem) (e : Env) (input : String) : World :=
  { authSystem := some a, env := e, messages := [], isTyping := false,
    userInput := input, chatBox := true, timers := [] }

/-- The page of a fresh guest. -/
def freshPage : World := pageWith freshGuest emptyEnv ""

/-- Three messages of a visitor, with the times at which they are sent. -/
def threeTurns : List (String × Nat) := [("hola", 1), ("ayuda", 2), ("clear", 3)]

/-- A fourth message. -/
def fourthTurn : String × Nat := ("export", 4)

/-- A local store holding the guest count 3, with an empty `users` collection. -/
def envGuestThree : Env := emptyEnv.setItem guestKey "3"

/-- A signed-in Premium account whose in-memory count is 10. -/
def premiumSignedIn : AuthSystem :=
  { freshGuest with user := some sampleUser, conversationCount := .int 10, isPremium := true }

/-- An environment whose `users` collection holds the document of the sample account,
with count 5 and not Premium, and whose local store is empty. -/
def envWithDoc : Env :=
  { emptyEnv with db := fun k =>
      if k = "u1" then some { newUserDoc "a@b.com" with conversationCount := some (.int 5) }
      else none }

/-- Sign-in, sign-out and sign-in again of the sample account, then an upgrade and
one turn. -/
def signInOutUpgrade : List AuthEvent :=
  [.authStateChanged (some sampleUser), .logout, .authStateChanged none,
   .authStateChanged (some sampleUser), .upgradeToPremium "monthly",
   .incrementConversationCount]

/-- The page at startup with the Firebase SDK missing and a stored guest count of 3. -/
def pageWithoutFirebase : World :=
  pageWith (AuthSystem.constructor .missing) envGuestThree ""

/-- A lower-casing of the ASCII letters, used in the examples. -/
def asciiLower (s : String) : String := String.mk (s.toList.map Char.toLower)

/-- A rendering of a timestamp used in the examples. -/
def sampleTime (t : Nat) : String := "t" ++ Nat.repr t

/-- The page of a fresh guest who has typed `hola`. -/
def helloPage : World := pageWith freshGuest emptyEnv "hola"

/-- The page of a fresh guest whose input holds only blanks. -/
def blankPage : World := pageWith freshGuest emptyEnv "   "

/-- A short transcript. -/
def sampleTranscript : List Message :=
  [{ sender := "user", content := "hola", timestamp := 1 },
   { sender := "ai", content := "¡Hola!", timestamp := 2 }]

/-- The sample account with a document, and the guest count 2 in the local store. -/
def envWithDocAndGuest : Env := envWithDoc.setItem guestKey "2"

/-- A local store holding `-5` under the guest key. -/
def envGuestNegative : Env := emptyEnv.setItem guestKey "-5"

/-! ## Auxiliary facts -/

/-- A string different from the empty string has a character. -/
theorem data_ne_nil_of_ne_empty {s : String} (h : s ≠ "") : s.data ≠ [] := by
  intro hd
  apply h
  cases s with
  | mk data =>
    simp only at hd
    subst hd
    rfl

/-! ## Decimal rendering and `parseInt` -/

theorem isDecDigit_digitChar (d : Nat) (hd : d < 10) : IsDecDigit (Nat.digitChar d) := by
  interval_cases d <;> decide

theorem digitVal_digitChar (d : Nat) (hd : d < 10) :
    (digitVal 10 (Nat.digitChar d)).getD 0 = d := by
  interval_cases d <;> decide

theorem digitVal_isSome_of_isDecDigit {c : Char} (h : IsDecDigit c) :
    (digitVal 10 c).isSome = true := by
  obtain ⟨h1, h2⟩ := h
  have hlt : c.toNat - 48 < 10 := by omega
  simp [digitVal, h1, h2, Option.filter, hlt]

theorem not_whitespace_of_isDecDigit {c : Char} (h : IsDecDigit c) :
    isJsWhitespace c = false := by
  obtain ⟨h1, h2⟩ := h
  simp only [isJsWhitespace, Bool.or_eq_false_iff, beq_eq_false_iff_ne, ne_eq,
    Bool.and_eq_false_iff, decide_eq_false_iff_not]
  refine ⟨⟨⟨⟨⟨⟨⟨⟨⟨⟨⟨⟨⟨⟨?_, ?_⟩, ?_⟩, ?_⟩, ?_⟩, ?_⟩, ?_⟩, ?_⟩, ?_⟩, ?_⟩, ?_⟩, ?_⟩, ?_⟩, ?_⟩, ?_⟩ <;>
    omega

theorem toDigitsCore_isDecDigit (f : Nat) :
    ∀ (n : Nat) (ds : List Char), (∀ c ∈ ds, IsDecDigit c) →
      ∀ c ∈ Nat.toDigitsCore 10 f n ds, IsDecDigit c := by
  induction f with
  | zero => intro n ds hds; simpa [Nat.toDigitsCore] using hds
  | succ f ih =>
    intro n ds hds
    have hd : IsDecDigit (Nat.digitChar (n % 10)) :=
      isDecDigit_digitChar _ (Nat.mod_lt _ (by decide))
    have hcons : ∀ c ∈ Nat.digitChar (n % 10) :: ds, IsDecDigit c := by
      intro c hc
      rcases List.mem_cons.mp hc with h | h
      · exact h ▸ hd
      · exact hds c h
    simp only [Nat.toDigitsCore]
    split
    · exact hcons
    · exact ih _ _ hcons

theorem toDigitsCore_ne_nil (f : Nat) :
    ∀ (n : Nat) (ds : List Char), ds ≠ [] → Nat.toDigitsCore 10 f n ds ≠ [] := by
  induction f with
  | zero => intro n ds hds; simpa [Nat.toDigitsCore] using hds
  | succ f ih =>
    intro n ds _
    simp only [Nat.toDigitsCore]
    split
    · simp
    · exact ih _ _ (by simp)

theorem toDigits_ne_nil (n : Nat) : Nat.toDigits 10 n ≠ [] := by
  simp only [Nat.toDigits, Nat.toDigitsCore]
  split
  · simp
  · exact toDigitsCore_ne_nil _ _ _ (by simp)

theorem toDigitsCore_value (f : Nat) :
    ∀ (n : Nat) (ds : List Char), n < f →
      (Nat.toDigitsCore 10 f n ds).foldl
        (fun acc c => acc * 10 + (digitVal 10 c).getD 0) 0 =
      ds.foldl (fun acc c => acc * 10 + (digitVal 10 c).getD 0) n := by
  induction f with
  | zero => intro n ds h; omega
  | succ f ih =>
    intro n ds h
    have hv := digitVal_digitChar (n % 10) (Nat.mod_lt _ (by decide))
    simp only [Nat.toDigitsCore]
    split
    · rename_i h0
      have hn : n % 10 = n := by omega
      simp only [List.foldl_cons, Nat.zero_mul, Nat.zero_add]
      rw [hv, hn]
    · rename_i h0
      have hlt : n / 10 < f := by omega
      rw [ih _ _ hlt]
      simp only [List.foldl_cons, hv]
      have hn : n / 10 * 10 + n % 10 = n := by omega
      rw [hn]

theorem dropWhile_whitespace_of_digits {l : List Char} (h : ∀ c ∈ l, IsDecDigit c) :
    l.dropWhile isJsWhitespace = l := by
  cases l with
  | nil => rfl
  | cons c cs =>
    simp [List.dropWhile, not_whitespace_of_isDecDigit (h c (by simp))]

theorem parseSign_of_digits {l : List Char} (h : ∀ c ∈ l, IsDecDigit c) :
    parseSign l = (false, l) := by
  unfold parseSign
  split
  · have := h '-' (by simp)
    exact absurd this (by decide)
  · have := h '+' (by simp)
    exact absurd this (by decide)
  · rfl

theorem parseRadix_of_digits {l : List Char} (h : ∀ c ∈ l, IsDecDigit c) :
    parseRadix l = (10, l) := by
  unfold parseRadix
  split
  · have := h 'x' (by simp)
    exact absurd this (by decide)
  · have := h 'X' (by simp)
    exact absurd this (by decide)
  · rfl

theorem takeWhile_digits {l : List Char} (h : ∀ c ∈ l, IsDecDigit c) :
    l.takeWhile (fun c => (digitVal 10 c).isSome) = l := by
  induction l with
  | nil => rfl
  | cons c cs ih =>
    have hc := digitVal_isSome_of_isDecDigit (h c (by simp))
    simp only [List.takeWhile, hc]
    rw [ih (fun d hd => h d (by simp [hd]))]

/-- Reading back the decimal rendering of a natural number gives the number. -/
theorem parseInt_repr (n : Nat) : parseInt (Nat.repr n) = .int (n : Int) := by
  have hall : ∀ c ∈ Nat.toDigits 10 n, IsDecDigit c :=
    toDigitsCore_isDecDigit _ _ _ (by simp)
  have hne : (Nat.toDigits 10 n).isEmpty = false := by
    cases h : Nat.toDigits 10 n with
    | nil => exact absurd h (toDigits_ne_nil n)
    | cons c cs => rfl
  have hval := toDigitsCore_value (n + 1) n [] (Nat.lt_succ_self n)
  simp only [List.foldl_nil] at hval
  have hdata : (Nat.repr n).toList = Nat.toDigits 10 n := rfl
  simp only [parseInt, hdata, dropWhile_whitespace_of_digits hall, parseSign_of_digits hall,
    parseRadix_of_digits hall, takeWhile_digits hall, hne]
  simp only [Nat.toDigits] at hval ⊢
  simp [hval]

/-- The decimal rendering of a natural number is a truthy string. -/
theorem jsTruthy_repr (n : Nat) : jsTruthy (some (Nat.repr n)) = true := by
  have hdata : (Nat.repr n).data = Nat.toDigits 10 n := rfl
  cases h : Nat.toDigits 10 n with
  | nil => exact absurd h (toDigits_ne_nil n)
  | cons c cs => simp [jsTruthy, hdata, h]

/-- Rendering a non-negative count and reading it back gives the count. -/
theorem parseInt_toJSString (n : Nat) :
    parseInt (JSNum.int (n : Int)).toJSString = .int (n : Int) ∧
    jsTruthy (some (JSNum.int (n : Int)).toJSString) = true := by
  have h : ¬ ((n : Int) < 0) := by omega
  simp only [JSNum.toJSString, h, if_false, Int.natAbs_ofNat]
  exact ⟨parseInt_repr n, jsTruthy_repr n⟩

/-! ## Entitlement evaluator -/

/-- C1: `canChat` is true whenever a user is signed in or `isPremium` is set, whatever
the count; in every other state it is the comparison `conversationCount <
maxFreeConversations`, which for an integer count `c` holds exactly when `c` is
below the limit and for `NaN` is false. -/
theorem canChat_spec (a : AuthSystem) :
    ((a.user ≠ none ∨ a.isPremium = true) → a.canChat = true) ∧
    (¬ (a.user ≠ none ∨ a.isPremium = true) →
      a.canChat = a.conversationCount.lt a.maxFreeConversations ∧
      (∀ c : Int, a.conversationCount = .int c →
        (a.canChat = true ↔ c < a.maxFreeConversations)) ∧
      (a.conversationCount = .nan → a.canChat = false)) := by
  rcases a with ⟨user, count, limit, premium, init⟩
  constructor
  · rintro (h | h)
    · cases user with
      | none => exact absurd rfl h
      | some u => simp [AuthSystem.canChat]
    · simp only at h
      simp [AuthSystem.canChat, h]
  · intro h
    have hu : user = none := by
      by_contra hne
      exact h (Or.inl hne)
    have hp : premium = false := by
      cases premium with
      | false => rfl
      | true => exact absurd (Or.inr rfl) h
    subst hu hp
    refine ⟨by simp [AuthSystem.canChat], ?_, ?_⟩
    · intro c hc
      simp only at hc
      subst hc
      simp [AuthSystem.canChat, JSNum.lt]
    · intro hc
      simp only at hc
      subst hc
      simp [AuthSystem.canChat, JSNum.lt]

/-- C2 (counterexample): a state with no signed-in user and a count at the limit in
which `canChat` is nevertheless true, because `isPremium` is set. -/
theorem canChat_guest_premium_counterexample :
    premiumGuestAtLimit.user = none ∧
    premiumGuestAtLimit.conversationCount = .int 3 ∧
    premiumGuestAtLimit.maxFreeConversations = 3 ∧
    premiumGuestAtLimit.canChat = true := by
  decide

/-- C2 (amended): with no signed-in user and `isPremium` false, `canChat` is true when
the count is below the limit and false when the count is at or above the limit. -/
theorem canChat_guest (a : AuthSystem) (c : Int) (hu : a.user = none)
    (hp : a.isPremium = false) (hc : a.conversationCount = .int c) :
    (c < a.maxFreeConversations → a.canChat = true) ∧
    (a.maxFreeConversations ≤ c → a.canChat = false) := by
  rcases a with ⟨user, count, limit, premium, init⟩
  simp only at hu hp hc
  subst hu hp hc
  constructor
  · intro h
    simp [AuthSystem.canChat, JSNum.lt, h]
  · intro h
    simp [AuthSystem.canChat, JSNum.lt, h]

/-- Witness of `canChat_guest` at a guest with count 3 and limit 3. -/
theorem canChat_guest_witness :
    ((3 : Int) < guestAtLimit.maxFreeConversations → guestAtLimit.canChat = true) ∧
    (guestAtLimit.maxFreeConversations ≤ 3 → guestAtLimit.canChat = false) :=
  canChat_guest guestAtLimit 3 rfl rfl rfl

/-! ## Chat turn controller: denial -/

/-- C4: when the auth system denies the turn and the trimmed input is not empty,
`sendMessage` appends one entry with sender `ai` and the fixed upsell text to the
transcript of a page that has a chat box, and changes nothing else: the auth system
(so the count), the environment (so the guest key and the backup key), the input and
the pending responses are the same. -/
theorem sendMessage_denied (w : World) (a : AuthSystem) (now : Nat)
    (ha : w.authSystem = some a) (hdeny : a.canChat = false)
    (hinput : jsTrim w.userInput ≠ "") (hbox : w.chatBox = true) :
    (w.sendMessage now).messages =
        w.messages ++ [{ sender := "ai", content := upsellMessage, timestamp := now }] ∧
    (w.sendMessage now).authSystem = some a ∧
    (w.sendMessage now).env = w.env ∧
    (w.sendMessage now).env.getItem guestKey = w.env.getItem guestKey ∧
    (w.sendMessage now).env.getItem backupKey = w.env.getItem backupKey ∧
    (w.sendMessage now).userInput = w.userInput ∧
    (w.sendMessage now).timers = w.timers ∧
    (w.sendMessage now).isTyping = w.isTyping := by
  have hne : (jsTrim w.userInput).data ≠ [] := data_ne_nil_of_ne_empty hinput
  simp [World.sendMessage, hne, ha, hdeny, World.appendMessage, hbox]

/-- Witness of `sendMessage_denied` at a guest with count 3 who types `hola`. -/
theorem sendMessage_denied_witness :
    ((pageWith guestAtLimit emptyEnv " hola ").sendMessage 7).messages =
        (pageWith guestAtLimit emptyEnv " hola ").messages ++
          [{ sender := "ai", content := upsellMessage, timestamp := 7 }] ∧
    ((pageWith guestAtLimit emptyEnv " hola ").sendMessage 7).authSystem = some guestAtLimit ∧
    ((pageWith guestAtLimit emptyEnv " hola ").sendMessage 7).env =
        (pageWith guestAtLimit emptyEnv " hola ").env ∧
    ((pageWith guestAtLimit emptyEnv " hola ").sendMessage 7).env.getItem guestKey =
        (pageWith guestAtLimit emptyEnv " hola ").env.getItem guestKey ∧
    ((pageWith guestAtLimit emptyEnv " hola ").sendMessage 7).env.getItem backupKey =
        (pageWith guestAtLimit emptyEnv " hola ").env.getItem backupKey ∧
    ((pageWith guestAtLimit emptyEnv " hola ").sendMessage 7).userInput =
        (pageWith guestAtLimit emptyEnv " hola ").userInput ∧
    ((pageWith guestAtLimit emptyEnv " hola ").sendMessage 7).timers =
        (pageWith guestAtLimit emptyEnv " hola ").timers ∧
    ((pageWith guestAtLimit emptyEnv " hola ").sendMessage 7).isTyping =
        (pageWith guestAtLimit emptyEnv " hola ").isTyping :=
  sendMessage_denied (pageWith guestAtLimit emptyEnv " hola ") guestAtLimit 7 rfl
    (by decide) (by decide) rfl

/-! ## Quota counter: loading -/

/-- C5: what `loadLocalConversationCount` leaves in `conversationCount`: 0 when the
guest key is missing or holds the empty string, and `NaN`, not 0, when it holds the
text `abc`, which `parseInt` cannot read. -/
theorem loadLocalConversationCount_unparseable (a : AuthSystem) :
    (a.loadLocalConversationCount emptyEnv).conversationCount = .int 0 ∧
    (a.loadLocalConversationCount (emptyEnv.setItem guestKey "")).conversationCount = .int 0 ∧
    (a.loadLocalConversationCount (emptyEnv.setItem guestKey "abc")).conversationCount
      = .nan := by
  refine ⟨?_, ?_, ?_⟩
  · rfl
  · rfl
  · rfl

/-- C7: two successive calls of `loadUserData` for a signed-in account without a
document, starting from an in-memory count of 3: the first call leaves the count at 3,
the second call reads the document written by the first and leaves it at 0. -/
theorem loadUserData_twice_missing_document :
    (signedInWithGuestCount.loadUserData emptyEnv).1.conversationCount = .int 3 ∧
    ((signedInWithGuestCount.loadUserData emptyEnv).1.loadUserData
      (signedInWithGuestCount.loadUserData emptyEnv).2).1.conversationCount = .int 0 := by
  constructor
  · rfl
  · rfl

/-- C8: for a signed-in account whose document does not exist, with the store
answering, `loadUserData` writes the new document, with count 0 and `premium` false,
and leaves the in-memory count and `isPremium` as they were before the call. -/
theorem loadUserData_missing_document (a : AuthSystem) (e : Env) (u : User)
    (hinit : a.authInitialized = true) (hu : a.user = some u)
    (honline : e.dbOnline = true) (hdoc : e.db u.uid = none) :
    (a.loadUserData e).2.db u.uid = some (newUserDoc u.email) ∧
    (newUserDoc u.email).conversationCount = some (.int 0) ∧
    (newUserDoc u.email).premium = some false ∧
    (a.loadUserData e).1.conversationCount = a.conversationCount ∧
    (a.loadUserData e).1.isPremium = a.isPremium := by
  simp [AuthSystem.loadUserData, hinit, hu, Env.docGet, Env.docSet, Env.record,
    honline, hdoc, newUserDoc]

/-- Witness of `loadUserData_missing_document`: the in-memory count stays 3. -/
theorem loadUserData_missing_document_witness :
    (signedInWithGuestCount.loadUserData emptyEnv).2.db sampleUser.uid
      = some (newUserDoc sampleUser.email) ∧
    (newUserDoc sampleUser.email).conversationCount = some (.int 0) ∧
    (newUserDoc sampleUser.email).premium = some false ∧
    (signedInWithGuestCount.loadUserData emptyEnv).1.conversationCount
      = signedInWithGuestCount.conversationCount ∧
    (signedInWithGuestCount.loadUserData emptyEnv).1.isPremium
      = signedInWithGuestCount.isPremium :=
  loadUserData_missing_document signedInWithGuestCount emptyEnv sampleUser rfl rfl rfl rfl

/-! ## Quota counter: increment and reload -/

/-- C6: for a guest whose in-memory count is the non-negative integer `n` held in the
local store, within the range where numbers are exact, `incrementConversationCount`
writes the rendering of `n + 1` under the guest key and a following
`loadLocalConversationCount` leaves `conversationCount = n + 1`. -/
theorem increment_then_load_guest (a : AuthSystem) (e : Env) (n : Nat)
    (hu : a.user = none) (hmem : a.conversationCount = .int (n : Int))
    (_hstore : e.getItem guestKey = some (JSNum.int (n : Int)).toJSString)
    (_hsafe : n + 1 < 2 ^ 53) :
    (a.incrementConversationCount e).1.conversationCount = .int ((n : Int) + 1) ∧
    (a.incrementConversationCount e).2.getItem guestKey
      = some (JSNum.int ((n : Int) + 1)).toJSString ∧
    ((a.incrementConversationCount e).1.loadLocalConversationCount
      (a.incrementConversationCount e).2).conversationCount = .int ((n : Int) + 1) := by
  have hr := parseInt_toJSString (n + 1)
  have hcast : ((n + 1 : Nat) : Int) = (n : Int) + 1 := by push_cast; rfl
  rw [hcast] at hr
  rcases a with ⟨user, count, limit, premium, init⟩
  simp only at hu hmem
  subst hu hmem
  refine ⟨?_, ?_, ?_⟩
  · simp [AuthSystem.incrementConversationCount, JSNum.succ]
  · simp [AuthSystem.incrementConversationCount, JSNum.succ, Env.setItem, Env.getItem]
  · simp [AuthSystem.incrementConversationCount, JSNum.succ, Env.setItem, Env.getItem,
      AuthSystem.loadLocalConversationCount, hr.1, hr.2]

/-- Witness of `increment_then_load_guest` at a guest with count 2 stored as `2`. -/
theorem increment_then_load_guest_witness :
    ({ freshGuest with conversationCount := .int 2 }.incrementConversationCount
        envGuestTwo).1.conversationCount = .int ((2 : Nat) + 1) ∧
    ({ freshGuest with conversationCount := .int 2 }.incrementConversationCount
        envGuestTwo).2.getItem guestKey = some (JSNum.int ((2 : Nat) + 1)).toJSString ∧
    (({ freshGuest with conversationCount := .int 2 }.incrementConversationCount
        envGuestTwo).1.loadLocalConversationCount
      ({ freshGuest with conversationCount := .int 2 }.incrementConversationCount
        envGuestTwo).2).conversationCount = .int ((2 : Nat) + 1) :=
  increment_then_load_guest { freshGuest with conversationCount := .int 2 } envGuestTwo 2
    rfl rfl rfl (by norm_num)

/-! ## Registration and migration -/

/-- With the store answering and the guest key absent or holding the rendering of a
count, the document sequence of `register` succeeds, leaves the new document with
that count (0 when the key is absent) and leaves the guest key absent. -/
theorem createDocumentAndMigrate_ok (e : Env) (user : User) (email : String)
    (stored : Option Nat) (honline : e.dbOnline = true)
    (hstore : e.getItem guestKey = stored.map (fun (n : Nat) => (JSNum.int (n : Int)).toJSString)) :
    (createDocumentAndMigrate e user email).1 = none ∧
    (createDocumentAndMigrate e user email).2.db user.uid =
      some { newUserDoc email with conversationCount := some (.int ((stored.getD 0 : Nat) : Int)) } ∧
    (createDocumentAndMigrate e user email).2.getItem guestKey = none ∧
    (createDocumentAndMigrate e user email).2.dbOnline = true := by
  cases stored with
  | none =>
    have hstore : e.localStorage guestKey = none := hstore
    simp [createDocumentAndMigrate, Env.docSet, Env.record, honline, Env.getItem, hstore,
      jsTruthy, newUserDoc]
  | some n =>
    have hstore : e.localStorage guestKey = some (JSNum.int (n : Int)).toJSString := hstore
    have hr := parseInt_toJSString n
    simp [createDocumentAndMigrate, Env.docSet, Env.docUpdate, Env.record, honline,
      Env.getItem, Env.removeItem, hstore, hr.1, hr.2, fieldIncrement, JSNum.add, newUserDoc]

/-- C9: for a valid email and a password of length at least 6, a `register` call whose
provider and store operations all succeed, made while the guest key holds the
rendering of a guest count `n` (within the range where numbers are exact) or is
absent, succeeds and leaves the account document with `conversationCount = n` (0 when
the key is absent) and `premium = false`, and the guest key absent. -/
theorem register_migrates_guest_count (a : AuthSystem) (e : Env) (user : User)
    (email password : String) (stored : Option Nat)
    (hinit : a.authInitialized = true) (hemail : validateEmail email = true)
    (hpw : 6 ≤ jsLength password) (honline : e.dbOnline = true)
    (hstore : e.getItem guestKey = stored.map (fun (n : Nat) => (JSNum.int (n : Int)).toJSString))
    (_hsafe : stored.getD 0 < 2 ^ 53) :
    (a.register e (.ok user) email password).1.success = true ∧
    (a.register e (.ok user) email password).2.db user.uid =
      some { newUserDoc email with
        conversationCount := some (.int ((stored.getD 0 : Nat) : Int)) } ∧
    ((a.register e (.ok user) email password).2.db user.uid).map (fun d => d.premium)
      = some (some false) ∧
    (a.register e (.ok user) email password).2.getItem guestKey = none := by
  have hpw2 : ¬ jsLength password < 6 := by omega
  have h := createDocumentAndMigrate_ok (e.record (.createUser email password)) user email
    stored honline hstore
  obtain ⟨h1, h2, h3, _⟩ := h
  have hreg : a.register e (.ok user) email password =
      ({ success := true, user := some user, error := none },
        (createDocumentAndMigrate (e.record (.createUser email password)) user email).2) := by
    simp only [AuthSystem.register, hinit, hemail, hpw2, Bool.not_true, Bool.false_eq_true,
      if_false]
    cases hc : createDocumentAndMigrate (e.record (.createUser email password)) user email with
    | mk code e2 =>
      rw [hc] at h1
      simp only at h1
      subst h1
      rfl
  rw [hreg]
  refine ⟨rfl, h2, ?_, h3⟩
  rw [h2]
  rfl

/-- Witness of `register_migrates_guest_count`: a guest count of 2 and the account
`a@b.com` with password `abcdef`. -/
theorem register_migrates_guest_count_witness :
    (freshGuest.register envGuestTwo (.ok sampleUser) "a@b.com" "abcdef").1.success = true ∧
    (freshGuest.register envGuestTwo (.ok sampleUser) "a@b.com" "abcdef").2.db sampleUser.uid =
      some { newUserDoc "a@b.com" with
        conversationCount := some (.int (((some 2 : Option Nat).getD 0 : Nat) : Int)) } ∧
    ((freshGuest.register envGuestTwo (.ok sampleUser) "a@b.com" "abcdef").2.db
        sampleUser.uid).map (fun d => d.premium) = some (some false) ∧
    (freshGuest.register envGuestTwo (.ok sampleUser) "a@b.com" "abcdef").2.getItem guestKey
      = none :=
  register_migrates_guest_count freshGuest envGuestTwo sampleUser "a@b.com" "abcdef" (some 2)
    rfl (by decide) (by decide) rfl rfl (by norm_num)

/-- C10 (counterexample): with the guest count 2 in the local store, a first run of the
document sequence of `register` leaves the account count at 2, and a second run from
the state left by the first leaves it at 0. -/
theorem migration_replay_counterexample :
    (createDocumentAndMigrate envGuestTwo sampleUser "a@b.com").1 = none ∧
    ((createDocumentAndMigrate envGuestTwo sampleUser "a@b.com").2.db "u1").map
      (fun d => d.conversationCount) = some (some (.int 2)) ∧
    (createDocumentAndMigrate
      (createDocumentAndMigrate envGuestTwo sampleUser "a@b.com").2 sampleUser "a@b.com").1
      = none ∧
    ((createDocumentAndMigrate
      (createDocumentAndMigrate envGuestTwo sampleUser "a@b.com").2 sampleUser "a@b.com").2.db
      "u1").map (fun d => d.conversationCount) = some (some (.int 0)) := by
  refine ⟨?_, ?_, ?_, ?_⟩
  · rfl
  · rfl
  · rfl
  · rfl

/-- C10 (amended): with the store answering, a second run of the document sequence of
`register` for the same account, from the state left by a first successful run,
writes the document again with `conversationCount = 0` and finds no guest key to
migrate: the account count after the second run is 0 whatever count the first run
migrated, and the guest key stays absent. -/
theorem migration_replay_resets (e : Env) (user : User) (email : String)
    (stored : Option Nat) (honline : e.dbOnline = true)
    (hstore : e.getItem guestKey = stored.map (fun (n : Nat) => (JSNum.int (n : Int)).toJSString)) :
    ((createDocumentAndMigrate e user email).2.db user.uid).map
      (fun d => d.conversationCount) = some (some (.int ((stored.getD 0 : Nat) : Int))) ∧
    (createDocumentAndMigrate (createDocumentAndMigrate e user email).2 user email).1
      = none ∧
    ((createDocumentAndMigrate (createDocumentAndMigrate e user email).2 user email).2.db
      user.uid).map (fun d => d.conversationCount) = some (some (.int 0)) ∧
    (createDocumentAndMigrate (createDocumentAndMigrate e user email).2 user email).2.getItem
      guestKey = none := by
  obtain ⟨_, h2, h3, h4⟩ := createDocumentAndMigrate_ok e user email stored honline hstore
  obtain ⟨k1, k2, k3, _⟩ :=
    createDocumentAndMigrate_ok (createDocumentAndMigrate e user email).2 user email none h4 h3
  refine ⟨?_, k1, ?_, k3⟩
  · rw [h2]
    rfl
  · rw [k2]
    rfl

/-- Witness of `migration_replay_resets` at the guest count 2. -/
theorem migration_replay_resets_witness :
    ((createDocumentAndMigrate envGuestTwo sampleUser "a@b.com").2.db sampleUser.uid).map
      (fun d => d.conversationCount)
      = some (some (.int (((some 2 : Option Nat).getD 0 : Nat) : Int))) ∧
    (createDocumentAndMigrate
      (createDocumentAndMigrate envGuestTwo sampleUser "a@b.com").2 sampleUser "a@b.com").1
      = none ∧
    ((createDocumentAndMigrate
      (createDocumentAndMigrate envGuestTwo sampleUser "a@b.com").2 sampleUser "a@b.com").2.db
      sampleUser.uid).map (fun d => d.conversationCount) = some (some (.int 0)) ∧
    (createDocumentAndMigrate
      (createDocumentAndMigrate envGuestTwo sampleUser "a@b.com").2 sampleUser
      "a@b.com").2.getItem guestKey = none :=
  migration_replay_resets envGuestTwo sampleUser "a@b.com" (some 2) rfl rfl

/-! ## Chat turn controller: the guest scenario -/

/-- An allowed submission by a guest: the count advances by one in memory and under
the guest key, the response is scheduled, and on a page with a chat box the user
entry is appended. -/
theorem submit_allowed (w : World) (a : AuthSystem) (t : String × Nat)
    (ha : w.authSystem = some a) (hu : a.user = none) (hc : a.canChat = true)
    (ht : jsTrim t.1 ≠ "") :
    (w.submit t).authSystem =
      some { a with conversationCount := a.conversationCount.succ } ∧
    (w.submit t).env = w.env.setItem guestKey a.conversationCount.succ.toJSString ∧
    (w.submit t).timers = w.timers ++ [jsTrim t.1] ∧
    (w.submit t).chatBox = w.chatBox ∧
    (w.chatBox = true → (w.submit t).messages =
      w.messages ++ [{ sender := "user", content := jsTrim t.1, timestamp := t.2 }]) := by
  have hne : (jsTrim t.1).data ≠ [] := data_ne_nil_of_ne_empty ht
  rcases a with ⟨user, count, limit, premium, init⟩
  simp only at hu
  subst hu
  cases hb : w.chatBox <;>
    simp [World.submit, World.sendMessage, hne, ha, hc, World.appendMessage,
      World.showTypingIndicator, hb, AuthSystem.incrementConversationCount]

/-- A denied submission: only the upsell entry is appended, on a page with a chat box;
the auth system, the environment and the pending responses stay as they were. -/
theorem submit_denied (w : World) (a : AuthSystem) (t : String × Nat)
    (ha : w.authSystem = some a) (hc : a.canChat = false) (ht : jsTrim t.1 ≠ "") :
    (w.submit t).authSystem = some a ∧
    (w.submit t).env = w.env ∧
    (w.submit t).timers = w.timers ∧
    (w.submit t).chatBox = w.chatBox ∧
    (w.chatBox = true → (w.submit t).messages =
      w.messages ++ [{ sender := "ai", content := upsellMessage, timestamp := t.2 }]) := by
  have hne : (jsTrim t.1).data ≠ [] := data_ne_nil_of_ne_empty ht
  cases hb : w.chatBox <;>
    simp [World.submit, World.sendMessage, hne, ha, hc, World.appendMessage, hb]

/-- One submission of a non-empty message by a guest with limit 3 and count `j` at
most 3 leaves a guest with count `min (j + 1) 3`. -/
theorem submit_guestAt (w : World) (j : Nat) (t : String × Nat) (hj : j ≤ 3)
    (hw : GuestAt w j) (ht : jsTrim t.1 ≠ "") :
    GuestAt (w.submit t) (min (j + 1) 3) ∧ (w.submit t).chatBox = w.chatBox := by
  obtain ⟨a, ha, hu, hp, hl, hcount⟩ := hw
  by_cases hlt : j < 3
  · have hc : a.canChat = true := by
      simp [AuthSystem.canChat, hu, hp, hcount, hl, JSNum.lt]
      omega
    obtain ⟨h1, _, _, h4, _⟩ := submit_allowed w a t ha hu hc ht
    refine ⟨⟨_, h1, hu, hp, hl, ?_⟩, h4⟩
    have hmin : min (j + 1) 3 = j + 1 := by omega
    simp only [hcount, JSNum.succ, hmin]
    push_cast
    rfl
  · have hc : a.canChat = false := by
      simp [AuthSystem.canChat, hu, hp, hcount, hl, JSNum.lt]
      omega
    obtain ⟨h1, _, _, h4, _⟩ := submit_denied w a t ha hc ht
    refine ⟨⟨a, h1, hu, hp, hl, ?_⟩, h4⟩
    have hmin : min (j + 1) 3 = j := by omega
    rw [hmin]
    exact hcount

/-- A sequence of submissions of non-empty messages by a guest with limit 3 and count
`j` at most 3 leaves a guest with count `min (j + length) 3`. -/
theorem runTurns_guestAt (turns : List (String × Nat)) :
    ∀ (w : World) (j : Nat), j ≤ 3 → GuestAt w j →
      (∀ x ∈ turns, jsTrim x.1 ≠ "") →
      GuestAt (w.runTurns turns) (min (j + turns.length) 3) ∧
      (w.runTurns turns).chatBox = w.chatBox := by
  induction turns with
  | nil =>
    intro w j hj hw _
    have hmin : min (j + ([] : List (String × Nat)).length) 3 = j := by
      simp only [List.length_nil, Nat.add_zero]
      omega
    rw [hmin]
    exact ⟨hw, rfl⟩
  | cons t rest ih =>
    intro w j hj hw hall
    obtain ⟨h1, h2⟩ := submit_guestAt w j t hj hw (hall t (by simp))
    obtain ⟨k1, k2⟩ := ih (w.submit t) (min (j + 1) 3) (by omega) h1
      (fun x hx => hall x (by simp [hx]))
    have hmin : min (min (j + 1) 3 + rest.length) 3 = min (j + (t :: rest).length) 3 := by
      simp only [List.length_cons]
      omega
    rw [hmin] at k1
    exact ⟨k1, k2.trans h2⟩

/-- C3: a fresh guest (no user, `isPremium` false, limit 3, count 0) submits non-empty
messages through `sendMessage`; `t` is submission number `k = turns.length + 1`.
Before it `canChat` is true exactly when `k ≤ 3`, and after it the count is
`min k 3`.  When `k ≤ 3` the turn is allowed: the response is scheduled and the user
entry is appended.  When `k > 3` the turn is denied: nothing is scheduled, the upsell
entry is appended, and the count and the environment are unchanged (the count is 3). -/
theorem fresh_guest_scenario (w : World) (turns : List (String × Nat)) (t : String × Nat)
    (hfresh : GuestAt w 0) (hturns : ∀ x ∈ turns, jsTrim x.1 ≠ "")
    (ht : jsTrim t.1 ≠ "") :
    (∃ a : AuthSystem, (w.runTurns turns).authSystem = some a ∧
      (a.canChat = true ↔ turns.length + 1 ≤ 3)) ∧
    ((w.runTurns turns).submit t).count
      = some (.int ((min (turns.length + 1) 3 : Nat) : Int)) ∧
    (turns.length + 1 ≤ 3 →
      ((w.runTurns turns).submit t).timers = (w.runTurns turns).timers ++ [jsTrim t.1] ∧
      (w.chatBox = true → ((w.runTurns turns).submit t).messages =
        (w.runTurns turns).messages ++
          [{ sender := "user", content := jsTrim t.1, timestamp := t.2 }])) ∧
    (3 < turns.length + 1 →
      ((w.runTurns turns).submit t).timers = (w.runTurns turns).timers ∧
      (w.chatBox = true → ((w.runTurns turns).submit t).messages =
        (w.runTurns turns).messages ++
          [{ sender := "ai", content := upsellMessage, timestamp := t.2 }]) ∧
      ((w.runTurns turns).submit t).count = (w.runTurns turns).count ∧
      ((w.runTurns turns).submit t).count = some (.int 3) ∧
      ((w.runTurns turns).submit t).env = (w.runTurns turns).env) := by
  obtain ⟨hbefore, hbox⟩ := runTurns_guestAt turns w 0 (by omega) hfresh hturns
  rw [Nat.zero_add] at hbefore
  have hle : min turns.length 3 ≤ 3 := by omega
  obtain ⟨hafter, _⟩ := submit_guestAt _ _ t hle hbefore ht
  have hmin : min (min turns.length 3 + 1) 3 = min (turns.length + 1) 3 := by omega
  rw [hmin] at hafter
  have hcountAfter : ((w.runTurns turns).submit t).count
      = some (.int ((min (turns.length + 1) 3 : Nat) : Int)) := by
    obtain ⟨b, hb, _, _, _, hbc⟩ := hafter
    simp only [World.count, hb, Option.map_some', hbc]
  obtain ⟨a, ha, hu, hp, hl, hcount⟩ := hbefore
  have hcan : a.canChat = true ↔ turns.length + 1 ≤ 3 := by
    simp [AuthSystem.canChat, hu, hp, hcount, hl, JSNum.lt]
    omega
  refine ⟨⟨a, ha, hcan⟩, hcountAfter, ?_, ?_⟩
  · intro hk
    obtain ⟨_, _, h3, _, h5⟩ := submit_allowed _ a t ha hu (hcan.mpr hk) ht
    exact ⟨h3, fun hcb => h5 (hbox.trans hcb)⟩
  · intro hk
    have hdeny : a.canChat = false := by
      cases hv : a.canChat with
      | false => rfl
      | true => exact absurd (hcan.mp hv) (by omega)
    obtain ⟨h1, h2, h3, _, h5⟩ := submit_denied _ a t ha hdeny ht
    have hm : min (turns.length + 1) 3 = 3 := by omega
    refine ⟨h3, fun hcb => h5 (hbox.trans hcb), ?_, ?_, h2⟩
    · simp only [World.count, h1, ha]
    · rw [hcountAfter, hm]
      rfl

/-- Witness of `fresh_guest_scenario`: three turns, then a fourth. -/
theorem fresh_guest_scenario_witness :
    (∃ a : AuthSystem, (freshPage.runTurns threeTurns).authSystem = some a ∧
      (a.canChat = true ↔ threeTurns.length + 1 ≤ 3)) ∧
    ((freshPage.runTurns threeTurns).submit fourthTurn).count
      = some (.int ((min (threeTurns.length + 1) 3 : Nat) : Int)) ∧
    (threeTurns.length + 1 ≤ 3 →
      ((freshPage.runTurns threeTurns).submit fourthTurn).timers =
        (freshPage.runTurns threeTurns).timers ++ [jsTrim fourthTurn.1] ∧
      (freshPage.chatBox = true →
        ((freshPage.runTurns threeTurns).submit fourthTurn).messages =
          (freshPage.runTurns threeTurns).messages ++
            [{ sender := "user", content := jsTrim fourthTurn.1,
               timestamp := fourthTurn.2 }])) ∧
    (3 < threeTurns.length + 1 →
      ((freshPage.runTurns threeTurns).submit fourthTurn).timers =
        (freshPage.runTurns threeTurns).timers ∧
      (freshPage.chatBox = true →
        ((freshPage.runTurns threeTurns).submit fourthTurn).messages =
          (freshPage.runTurns threeTurns).messages ++
            [{ sender := "ai", content := upsellMessage, timestamp := fourthTurn.2 }]) ∧
      ((freshPage.runTurns threeTurns).submit fourthTurn).count =
        (freshPage.runTurns threeTurns).count ∧
      ((freshPage.runTurns threeTurns).submit fourthTurn).count = some (.int 3) ∧
      ((freshPage.runTurns threeTurns).submit fourthTurn).env =
        (freshPage.runTurns threeTurns).env) :=
  fresh_guest_scenario freshPage threeTurns fourthTurn
    ⟨freshGuest, rfl, rfl, rfl, rfl, rfl⟩ (by decide) (by decide)

/-! ## Identity state machine -/

theorem loadLocalConversationCount_fields (a : AuthSystem) (e : Env) :
    (a.loadLocalConversationCount e).user = a.user ∧
    (a.loadLocalConversationCount e).isPremium = a.isPremium ∧
    (a.loadLocalConversationCount e).authInitialized = a.authInitialized ∧
    (a.loadLocalConversationCount e).maxFreeConversations = a.maxFreeConversations :=
  ⟨rfl, rfl, rfl, rfl⟩

theorem loadUserData_user (a : AuthSystem) (e : Env) :
    (a.loadUserData e).1.user = a.user := by
  rcases a with ⟨user, count, limit, premium, init⟩
  cases init with
  | false => rfl
  | true =>
    cases user with
    | none => rfl
    | some u =>
      rcases e with ⟨store, db, online, calls⟩
      cases online with
      | false => rfl
      | true =>
        cases hdb : db u.uid with
        | none => simp [AuthSystem.loadUserData, Env.docGet, Env.docSet, Env.record, hdb]
        | some d => simp [AuthSystem.loadUserData, Env.docGet, Env.record, hdb]

theorem incrementConversationCount_fields (a : AuthSystem) (e : Env) :
    (a.incrementConversationCount e).1.user = a.user ∧
    (a.incrementConversationCount e).1.isPremium = a.isPremium ∧
    (a.incrementConversationCount e).1.conversationCount = a.conversationCount.succ := by
  rcases a with ⟨user, count, limit, premium, init⟩
  cases user with
  | none => exact ⟨rfl, rfl, rfl⟩
  | some u =>
    cases init with
    | false => exact ⟨rfl, rfl, rfl⟩
    | true =>
      simp only [AuthSystem.incrementConversationCount]
      split <;> exact ⟨rfl, rfl, rfl⟩

theorem upgradeToPremium_fields (a : AuthSystem) (e : Env) (plan : String) :
    (a.upgradeToPremium e plan).1.user = a.user ∧
    (a.upgradeToPremium e plan).1.isPremium = true := by
  rcases a with ⟨user, count, limit, premium, init⟩
  cases user with
  | none => exact ⟨rfl, rfl⟩
  | some u =>
    cases init with
    | false => exact ⟨rfl, rfl⟩
    | true => exact ⟨rfl, rfl⟩

/-- One event other than a sign-out of a Premium session and other than a guest
upgrade keeps the property that `isPremium` implies a signed-in user. -/
theorem apply_keeps_premium_signed_in (ev : AuthEvent) (s : AuthSystem × Env)
    (hinv : s.1.isPremium = true → s.1.user ≠ none)
    (hev : ev.keepsPremiumSignedIn s.1 = true) :
    (ev.apply s).1.isPremium = true → (ev.apply s).1.user ≠ none := by
  cases ev with
  | register reply email password => exact hinv
  | login reply email password => exact hinv
  | logout => exact hinv
  | authStateChanged user =>
    cases user with
    | none =>
      have hp : s.1.isPremium = false := by
        simpa [AuthEvent.keepsPremiumSignedIn] using hev
      intro hprem
      exfalso
      simp only [AuthEvent.apply] at hprem
      split at hprem
      · simp [AuthSystem.onAuthStateChanged, AuthSystem.loadLocalConversationCount, hp]
          at hprem
      · rw [hp] at hprem
        exact absurd hprem (by simp)
    | some u =>
      intro _
      simp only [AuthEvent.apply]
      split
      · simp [AuthSystem.onAuthStateChanged, loadUserData_user]
      · rename_i hinit
        intro hnone
        simp only [AuthEvent.apply, hinit] at *
        exact absurd hnone (hinv (by assumption))
  | upgradeToPremium plan =>
    intro _
    have hu : s.1.user.isSome = true := by
      simpa [AuthEvent.keepsPremiumSignedIn] using hev
    simp only [AuthEvent.apply, (upgradeToPremium_fields s.1 s.2 plan).1]
    intro hnone
    rw [hnone] at hu
    exact absurd hu (by simp)
  | incrementConversationCount =>
    obtain ⟨h1, h2, _⟩ := incrementConversationCount_fields s.1 s.2
    simp only [AuthEvent.apply, h1, h2]
    exact hinv

/-- A sequence of such events keeps the property. -/
theorem runEvents_keeps_premium_signed_in (evs : List AuthEvent) :
    ∀ s : AuthSystem × Env, (s.1.isPremium = true → s.1.user ≠ none) →
      eventsKeepPremiumSignedIn evs s = true →
      (runEvents evs s).1.isPremium = true → (runEvents evs s).1.user ≠ none := by
  induction evs with
  | nil => intro s hinv _; exact hinv
  | cons ev rest ih =>
    intro s hinv hall
    simp only [eventsKeepPremiumSignedIn, Bool.and_eq_true] at hall
    exact ih (ev.apply s) (apply_keeps_premium_signed_in ev s hinv hall.1) hall.2

/-- C11 (counterexample): from construction, `upgradeToPremium` invoked while no user
is signed in leaves `isPremium` set with no user. -/
theorem upgradeToPremium_guest_counterexample :
    (runEvents [.upgradeToPremium "monthly"]
      (AuthSystem.constructor .ready, emptyEnv)).1.isPremium = true ∧
    (runEvents [.upgradeToPremium "monthly"]
      (AuthSystem.constructor .ready, emptyEnv)).1.user = none := by
  constructor
  · rfl
  · rfl

/-- C11 (amended): in every state reached from construction through register, login,
logout calls, sign-in callbacks, sign-out callbacks, `incrementConversationCount` and
`upgradeToPremium`, where every `upgradeToPremium` is invoked while a user is signed
in and no sign-out callback fires while `isPremium` is set, `isPremium` implies that
a user is signed in; and `upgradeToPremium` sets `isPremium` in every state, whether
or not a user is signed in. -/
theorem premium_implies_signed_in (fb : FirebaseStartup) (e : Env) (evs : List AuthEvent)
    (hevs : eventsKeepPremiumSignedIn evs (AuthSystem.constructor fb, e) = true) :
    ((runEvents evs (AuthSystem.constructor fb, e)).1.isPremium = true →
      (runEvents evs (AuthSystem.constructor fb, e)).1.user ≠ none) ∧
    (∀ (a : AuthSystem) (e1 : Env) (plan : String),
      (a.upgradeToPremium e1 plan).1.isPremium = true ∧
      (a.upgradeToPremium e1 plan).1.user = a.user) := by
  constructor
  · apply runEvents_keeps_premium_signed_in evs _ _ hevs
    intro h
    cases fb <;> simp [AuthSystem.constructor, AuthSystem.init] at h
  · intro a e1 plan
    exact ⟨(upgradeToPremium_fields a e1 plan).2, (upgradeToPremium_fields a e1 plan).1⟩

/-- Witness of `premium_implies_signed_in`: sign-in, sign-out and sign-in of an
account that is not Premium, then upgrade and one turn. -/
theorem premium_implies_signed_in_witness :
    ((runEvents signInOutUpgrade (AuthSystem.constructor .ready, envWithDoc)).1.isPremium
        = true →
      (runEvents signInOutUpgrade (AuthSystem.constructor .ready, envWithDoc)).1.user
        ≠ none) ∧
    (∀ (a : AuthSystem) (e1 : Env) (plan : String),
      (a.upgradeToPremium e1 plan).1.isPremium = true ∧
      (a.upgradeToPremium e1 plan).1.user = a.user) :=
  premium_implies_signed_in .ready envWithDoc signInOutUpgrade rfl

/-- C12: the sign-out callback on a signed-in Premium account, with the guest count 3
in the local store: the user is cleared and the count reloaded as 3, at the limit 3,
but `isPremium` stays set and `canChat` is true. -/
theorem signOut_premium_still_allowed :
    (premiumSignedIn.onAuthStateChanged envGuestThree none).1.user = none ∧
    (premiumSignedIn.onAuthStateChanged envGuestThree none).1.conversationCount = .int 3 ∧
    (premiumSignedIn.onAuthStateChanged envGuestThree none).1.maxFreeConversations = 3 ∧
    (premiumSignedIn.onAuthStateChanged envGuestThree none).1.isPremium = true ∧
    (premiumSignedIn.onAuthStateChanged envGuestThree none).1.canChat = true := by
  refine ⟨rfl, rfl, rfl, rfl, rfl⟩

/-- C13: after the auth-state callback fires with no user, `user` is null, the
environment is untouched, and `conversationCount` is 0 when the guest key is absent
(or holds the empty string) and otherwise the value `parseInt` reads from the guest
key, within the range where numbers are exact: the count `n` for a stored count
`n < 2 ^ 53`; the result is the same whatever the fields of the signed-in account
were. -/
theorem signOut_reloads_local_count (a : AuthSystem) (e : Env) :
    (a.onAuthStateChanged e none).1.user = none ∧
    (a.onAuthStateChanged e none).2 = e ∧
    (e.getItem guestKey = none →
      (a.onAuthStateChanged e none).1.conversationCount = .int 0) ∧
    (e.getItem guestKey = some "" →
      (a.onAuthStateChanged e none).1.conversationCount = .int 0) ∧
    (∀ s : String, e.getItem guestKey = some s → s ≠ "" → (parseInt s).Safe →
      (a.onAuthStateChanged e none).1.conversationCount = parseInt s) ∧
    (∀ n : Nat, n < 2 ^ 53 →
      e.getItem guestKey = some (JSNum.int (n : Int)).toJSString →
      (a.onAuthStateChanged e none).1.conversationCount = .int (n : Int)) ∧
    (∀ b : AuthSystem, (b.onAuthStateChanged e none).1.conversationCount =
      (a.onAuthStateChanged e none).1.conversationCount) := by
  refine ⟨rfl, rfl, ?_, ?_, ?_, ?_, ?_⟩
  · intro h
    simp [AuthSystem.onAuthStateChanged, AuthSystem.loadLocalConversationCount, h, jsTruthy]
  · intro h
    simp [AuthSystem.onAuthStateChanged, AuthSystem.loadLocalConversationCount, h, jsTruthy]
  · intro s h hne _
    have hd := data_ne_nil_of_ne_empty hne
    simp [AuthSystem.onAuthStateChanged, AuthSystem.loadLocalConversationCount, h, jsTruthy, hd]
  · intro n _ h
    have hr := parseInt_toJSString n
    simp only [AuthSystem.onAuthStateChanged, AuthSystem.loadLocalConversationCount, h, hr.2,
      if_true, Option.getD_some, hr.1]
  · intro b
    rfl

/-- For a signed-in user whose document exists, with the store answering,
`loadUserData` takes both fields from the document. -/
theorem loadUserData_existing_document (a : AuthSystem) (e : Env) (u : User) (d : UserDoc)
    (hinit : a.authInitialized = true) (hu : a.user = some u)
    (honline : e.dbOnline = true) (hdoc : e.db u.uid = some d) :
    (a.loadUserData e).1.isPremium = d.premium.getD false ∧
    (a.loadUserData e).1.conversationCount = JSNum.orZero d.conversationCount ∧
    (a.loadUserData e).2.db = e.db ∧
    (a.loadUserData e).2.dbOnline = true := by
  simp [AuthSystem.loadUserData, hinit, hu, Env.docGet, Env.record, honline, hdoc]

/-- C14: for a signed-in user whose document exists, `loadUserData` sets `isPremium`
to the `premium` flag of the document and `conversationCount` to its count (an
integer count is taken as it is).  After `upgradeToPremium` by that user with the
store answering, the document carries `premium = true`; a sign-out callback followed
by a sign-in callback of the same account then ends with `isPremium` true, and so
does a sign-in on any initialised `AuthSystem`, whatever its `isPremium` was. -/
theorem premium_restored_from_document (a : AuthSystem) (e : Env) (u : User) (d : UserDoc)
    (plan : String) (hinit : a.authInitialized = true) (hu : a.user = some u)
    (honline : e.dbOnline = true) (hdoc : e.db u.uid = some d) :
    ((a.loadUserData e).1.isPremium = d.premium.getD false ∧
      (∀ flag : Bool, d.premium = some flag → (a.loadUserData e).1.isPremium = flag) ∧
      (∀ c : Int, d.conversationCount = some (.int c) →
        (a.loadUserData e).1.conversationCount = .int c)) ∧
    ((a.upgradeToPremium e plan).2.db u.uid).map (fun doc => doc.premium)
      = some (some true) ∧
    (runEvents [.authStateChanged none, .authStateChanged (some u)]
      (a.upgradeToPremium e plan)).1.isPremium = true ∧
    (∀ b : AuthSystem, b.authInitialized = true →
      (b.onAuthStateChanged (a.upgradeToPremium e plan).2 (some u)).1.isPremium = true) := by
  have hload := loadUserData_existing_document a e u d hinit hu honline hdoc
  have hup : (a.upgradeToPremium e plan).2.db u.uid =
      some { d with premium := some true, premiumSince := true, premiumPlan := some plan } ∧
      (a.upgradeToPremium e plan).2.dbOnline = true := by
    rcases a with ⟨user, count, limit, premium, init⟩
    simp only at hinit hu
    subst hinit hu
    simp [AuthSystem.upgradeToPremium, Env.docUpdate, Env.record, honline, hdoc]
  have hsign : ∀ b : AuthSystem, b.authInitialized = true →
      (b.onAuthStateChanged (a.upgradeToPremium e plan).2 (some u)).1.isPremium = true := by
    intro b hb
    have h := loadUserData_existing_document { b with user := some u }
      (a.upgradeToPremium e plan).2 u _ hb rfl hup.2 hup.1
    simp only [AuthSystem.onAuthStateChanged, h.1]
    rfl
  refine ⟨⟨hload.1, ?_, ?_⟩, ?_, ?_, hsign⟩
  · intro flag hflag
    rw [hload.1, hflag]
    rfl
  · intro c hc
    rw [hload.2.1, hc]
    rfl
  · rw [hup.1]
    rfl
  · have hinit2 : (a.upgradeToPremium e plan).1.authInitialized = true := by
      rcases a with ⟨user, count, limit, premium, init⟩
      simp only at hinit hu
      subst hinit hu
      rfl
    simp only [runEvents, List.foldl_cons, List.foldl_nil, AuthEvent.apply, hinit2, if_true]
    have hstep : ((a.upgradeToPremium e plan).1.onAuthStateChanged
        (a.upgradeToPremium e plan).2 none).2 = (a.upgradeToPremium e plan).2 := rfl
    have hinit3 : ((a.upgradeToPremium e plan).1.onAuthStateChanged
        (a.upgradeToPremium e plan).2 none).1.authInitialized = true := hinit2
    simp only [hinit3, if_true, hstep]
    exact hsign _ hinit3

/-- Witness of `premium_restored_from_document`: the sample account, whose document
is not Premium before the upgrade. -/
theorem premium_restored_from_document_witness :
    ((signedInWithGuestCount.loadUserData envWithDoc).1.isPremium
        = ({ newUserDoc "a@b.com" with conversationCount := some (.int 5) } : UserDoc).premium.getD
            false ∧
      (∀ flag : Bool,
        ({ newUserDoc "a@b.com" with conversationCount := some (.int 5) } : UserDoc).premium
          = some flag →
        (signedInWithGuestCount.loadUserData envWithDoc).1.isPremium = flag) ∧
      (∀ c : Int,
        ({ newUserDoc "a@b.com" with conversationCount := some (.int 5) } : UserDoc).conversationCount
          = some (.int c) →
        (signedInWithGuestCount.loadUserData envWithDoc).1.conversationCount = .int c)) ∧
    ((signedInWithGuestCount.upgradeToPremium envWithDoc "yearly").2.db sampleUser.uid).map
      (fun doc => doc.premium) = some (some true) ∧
    (runEvents [.authStateChanged none, .authStateChanged (some sampleUser)]
      (signedInWithGuestCount.upgradeToPremium envWithDoc "yearly")).1.isPremium = true ∧
    (∀ b : AuthSystem, b.authInitialized = true →
      (b.onAuthStateChanged (signedInWithGuestCount.upgradeToPremium envWithDoc "yearly").2
        (some sampleUser)).1.isPremium = true) :=
  premium_restored_from_document signedInWithGuestCount envWithDoc sampleUser
    { newUserDoc "a@b.com" with conversationCount := some (.int 5) } "yearly" rfl rfl rfl rfl

/-! ## Quota counter: the account scope -/

/-- C18: for a signed-in user whose remote update fails (the store does not answer,
or the document is missing) and whose in-memory count is an integer `c` in the range
where numbers are exact, `incrementConversationCount` returns with the in-memory
count `c + 1`, the rendering of `c + 1` written under the backup key, and the guest
key and the documents as they were. -/
theorem increment_remote_failure (a : AuthSystem) (e : Env) (u : User) (c : Int)
    (hu : a.user = some u) (hinit : a.authInitialized = true)
    (hfail : e.dbOnline = false ∨ e.db u.uid = none)
    (hc : a.conversationCount = .int c) (_hsafe : -(2 : Int) ^ 53 < c ∧ c < 2 ^ 53) :
    (a.incrementConversationCount e).1.conversationCount = .int (c + 1) ∧
    (a.incrementConversationCount e).2.getItem backupKey
      = some (JSNum.int (c + 1)).toJSString ∧
    (a.incrementConversationCount e).2.getItem guestKey = e.getItem guestKey ∧
    (a.incrementConversationCount e).2.db = e.db ∧
    (a.incrementConversationCount e).2.calls = e.calls ++ [.docUpdate u.uid] := by
  have hkey : guestKey ≠ backupKey := by decide
  rcases a with ⟨user, count, limit, premium, init⟩
  simp only at hu hinit hc
  subst hu hinit hc
  have hstep : (AuthSystem.incrementConversationCount
      { user := some u, conversationCount := .int c, maxFreeConversations := limit,
        isPremium := premium, authInitialized := true } e) =
      ({ user := some u, conversationCount := .int (c + 1), maxFreeConversations := limit,
         isPremium := premium, authInitialized := true },
        (e.record (.docUpdate u.uid)).setItem backupKey (JSNum.int (c + 1)).toJSString) := by
    rcases hfail with h | h
    · simp [AuthSystem.incrementConversationCount, Env.docUpdate, h, JSNum.succ]
    · cases hon : e.dbOnline <;>
        simp [AuthSystem.incrementConversationCount, Env.docUpdate, h, hon, JSNum.succ]
  rw [hstep]
  refine ⟨rfl, ?_, ?_, rfl, rfl⟩
  · simp [Env.setItem, Env.getItem]
  · simp [Env.setItem, Env.getItem, Env.record, hkey]

/-- Witness of `increment_remote_failure`: the sample account without a document,
with the in-memory count 3. -/
theorem increment_remote_failure_witness :
    (signedInWithGuestCount.incrementConversationCount envGuestTwo).1.conversationCount
      = .int (3 + 1) ∧
    (signedInWithGuestCount.incrementConversationCount envGuestTwo).2.getItem backupKey
      = some (JSNum.int (3 + 1)).toJSString ∧
    (signedInWithGuestCount.incrementConversationCount envGuestTwo).2.getItem guestKey
      = envGuestTwo.getItem guestKey ∧
    (signedInWithGuestCount.incrementConversationCount envGuestTwo).2.db = envGuestTwo.db ∧
    (signedInWithGuestCount.incrementConversationCount envGuestTwo).2.calls
      = envGuestTwo.calls ++ [.docUpdate sampleUser.uid] :=
  increment_remote_failure signedInWithGuestCount envGuestTwo sampleUser 3 rfl rfl
    (Or.inr rfl) rfl (by norm_num)

/-- C19: for a signed-in user whose document exists, with the store answering,
`incrementConversationCount` makes one `update` call that adds 1 to the count held by
the document, whatever the in-memory count is, and leaves the local store as it was. -/
theorem increment_remote_success (a : AuthSystem) (e : Env) (u : User) (d : UserDoc)
    (hu : a.user = some u) (hinit : a.authInitialized = true)
    (honline : e.dbOnline = true) (hdoc : e.db u.uid = some d) :
    (a.incrementConversationCount e).2.db u.uid =
      some { d with conversationCount := fieldIncrement (.int 1) d.conversationCount,
                    lastActivity := true } ∧
    (∀ c : Int, d.conversationCount = some (.int c) →
      ((a.incrementConversationCount e).2.db u.uid).map (fun doc => doc.conversationCount)
        = some (some (.int (c + 1)))) ∧
    (∀ m : JSNum, ({ a with conversationCount := m }.incrementConversationCount e).2.db
      = (a.incrementConversationCount e).2.db) ∧
    (a.incrementConversationCount e).2.calls = e.calls ++ [.docUpdate u.uid] ∧
    (a.incrementConversationCount e).2.localStorage = e.localStorage := by
  rcases a with ⟨user, count, limit, premium, init⟩
  simp only at hu hinit
  subst hu hinit
  have hstep : ∀ m : JSNum, (AuthSystem.incrementConversationCount
      { user := some u, conversationCount := m, maxFreeConversations := limit,
        isPremium := premium, authInitialized := true } e).2 =
      (e.docUpdate u.uid (fun doc =>
        { doc with conversationCount := fieldIncrement (.int 1) doc.conversationCount,
                   lastActivity := true })).2 := by
    intro m
    simp [AuthSystem.incrementConversationCount, Env.docUpdate, honline, hdoc]
  refine ⟨?_, ?_, ?_, ?_, ?_⟩
  · rw [hstep]
    simp [Env.docUpdate, honline, hdoc]
  · intro c hc
    rw [hstep]
    simp [Env.docUpdate, honline, hdoc, hc, fieldIncrement, JSNum.add]
  · intro m
    rw [hstep, hstep]
  · rw [hstep]
    simp [Env.docUpdate, honline, hdoc, Env.record]
  · rw [hstep]
    simp [Env.docUpdate, honline, hdoc, Env.record]

/-- Witness of `increment_remote_success`: the sample account, document count 5 and
in-memory count 3. -/
theorem increment_remote_success_witness :
    (signedInWithGuestCount.incrementConversationCount envWithDoc).2.db sampleUser.uid =
      some { ({ newUserDoc "a@b.com" with conversationCount := some (.int 5) } : UserDoc) with
        conversationCount := fieldIncrement (.int 1)
          ({ newUserDoc "a@b.com" with conversationCount := some (.int 5) } : UserDoc).conversationCount,
        lastActivity := true } ∧
    (∀ c : Int,
      ({ newUserDoc "a@b.com" with conversationCount := some (.int 5) } : UserDoc).conversationCount
        = some (.int c) →
      ((signedInWithGuestCount.incrementConversationCount envWithDoc).2.db sampleUser.uid).map
        (fun doc => doc.conversationCount) = some (some (.int (c + 1)))) ∧
    (∀ m : JSNum,
      ({ signedInWithGuestCount with conversationCount := m }.incrementConversationCount
        envWithDoc).2.db = (signedInWithGuestCount.incrementConversationCount envWithDoc).2.db) ∧
    (signedInWithGuestCount.incrementConversationCount envWithDoc).2.calls
      = envWithDoc.calls ++ [.docUpdate sampleUser.uid] ∧
    (signedInWithGuestCount.incrementConversationCount envWithDoc).2.localStorage
      = envWithDoc.localStorage :=
  increment_remote_success signedInWithGuestCount envWithDoc sampleUser
    { newUserDoc "a@b.com" with conversationCount := some (.int 5) } rfl rfl rfl rfl

/-! ## Startup without the identity provider -/

/-- C20: with the Firebase SDK missing and the guest count 3 in the local store, the
constructed system has `conversationCount = 0` and `canChat` true, and the first
message is allowed: it leaves the count at 1 and overwrites the stored count with 1. -/
theorem startup_without_firebase_ignores_store :
    pageWithoutFirebase.env.getItem guestKey = some "3" ∧
    (AuthSystem.constructor .missing).conversationCount = .int 0 ∧
    (AuthSystem.constructor .missing).canChat = true ∧
    (pageWithoutFirebase.submit ("hola", 1)).count = some (.int 1) ∧
    (pageWithoutFirebase.submit ("hola", 1)).timers = ["hola"] ∧
    (pageWithoutFirebase.submit ("hola", 1)).env.getItem guestKey = some "1" := by
  refine ⟨rfl, rfl, rfl, ?_, ?_, ?_⟩
  · decide
  · decide
  · decide

/-! ## Email validation -/

theorem mem_plusRemainders (cs r : List Char) :
    r ∈ plusRemainders cs ↔
      ∃ p : List Char, p ≠ [] ∧ (∀ c ∈ p, emailClass c = true) ∧ cs = p ++ r := by
  induction cs with
  | nil =>
    simp only [plusRemainders, List.not_mem_nil, false_iff]
    rintro ⟨p, hp, _, h⟩
    cases p with
    | nil => exact hp rfl
    | cons c t => simp at h
  | cons c t ih =>
    by_cases hc : emailClass c = true
    · simp only [plusRemainders, hc, if_true, List.mem_cons, ih]
      constructor
      · rintro (h | ⟨p, hp, hall, h⟩)
        · exact ⟨[c], by simp, by simpa using hc, by simp [h]⟩
        · refine ⟨c :: p, by simp, ?_, by simp [h]⟩
          intro x hx
          rcases List.mem_cons.mp hx with hx | hx
          · exact hx ▸ hc
          · exact hall x hx
      · rintro ⟨p, hp, hall, h⟩
        cases p with
        | nil => exact absurd rfl hp
        | cons x p1 =>
          simp only [List.cons_append, List.cons.injEq] at h
          obtain ⟨_, ht⟩ := h
          cases p1 with
          | nil => left; simpa using ht.symm
          | cons y p2 =>
            right
            exact ⟨y :: p2, by simp, fun z hz => hall z (by simp [List.mem_cons.mp hz]), ht⟩
    · have hc2 : emailClass c = false := by simpa using hc
      simp only [plusRemainders, hc2, Bool.false_eq_true, if_false, List.not_mem_nil,
        false_iff]
      rintro ⟨p, hp, hall, h⟩
      cases p with
      | nil => exact hp rfl
      | cons x p1 =>
        simp only [List.cons_append, List.cons.injEq] at h
        exact hc (h.1 ▸ hall x (by simp))

theorem mem_expectChar (ch : Char) (cs r : List Char) :
    r ∈ expectChar ch cs ↔ cs = ch :: r := by
  cases cs with
  | nil => simp [expectChar]
  | cons c t =>
    by_cases hc : c = ch
    · simp [expectChar, hc, eq_comm]
    · simp [expectChar, hc]

/-- The strings the pattern of `validateEmail` accepts: three non-empty runs of
characters of the class `[^\s@]`, separated by an `@` and by a dot. -/
theorem validateEmail_iff_runs (s : String) :
    validateEmail s = true ↔
      ∃ a b c : List Char, s.toList = a ++ '@' :: (b ++ '.' :: c) ∧
        a ≠ [] ∧ b ≠ [] ∧ c ≠ [] ∧
        (∀ x ∈ a, emailClass x = true) ∧ (∀ x ∈ b, emailClass x = true) ∧
        (∀ x ∈ c, emailClass x = true) := by
  simp only [validateEmail, List.any_eq_true, List.mem_flatMap, mem_plusRemainders,
    mem_expectChar, List.isEmpty_iff]
  constructor
  · rintro ⟨r5, ⟨r4, ⟨r3, ⟨r2, ⟨r1, ⟨a, ha, haall, hs⟩, h1⟩, ⟨b, hb, hball, h2⟩⟩, h3⟩,
      ⟨c, hc, hcall, h4⟩⟩, h5⟩
    subst h5
    refine ⟨a, b, c, ?_, ha, hb, hc, haall, hball, hcall⟩
    rw [hs, h1, h2, h3, h4]
    simp
  · rintro ⟨a, b, c, hs, ha, hb, hc, haall, hball, hcall⟩
    refine ⟨[], ⟨c, ⟨'.' :: c, ⟨b ++ '.' :: c, ⟨'@' :: (b ++ '.' :: c), ⟨a, ha, haall, hs⟩,
      rfl⟩, ⟨b, hb, hball, rfl⟩⟩, rfl⟩, ⟨c, hc, hcall, by simp⟩⟩, rfl⟩

theorem emailClass_iff (x : Char) :
    emailClass x = true ↔ isJsWhitespace x = false ∧ x ≠ '@' := by
  simp [emailClass]

/-- C15: `validateEmail s` is true exactly when `s` has the shape `local@domain.tld`
of the specification: no white space, exactly one `@`, a non-empty part before it,
and after it a part with a dot that has at least one character before it and at
least one after it.  The address `a@b.com` is accepted and `not-an-email` is
rejected. -/
theorem validateEmail_iff_shape (s : String) :
    (validateEmail s = true ↔ EmailShape s) ∧
    validateEmail "a@b.com" = true ∧
    validateEmail "not-an-email" = false := by
  refine ⟨?_, by decide, by decide⟩
  rw [validateEmail_iff_runs]
  constructor
  · rintro ⟨a, b, c, hs, ha, hb, hc, haall, hball, hcall⟩
    have hcount : ∀ l : List Char, (∀ x ∈ l, emailClass x = true) → l.count '@' = 0 := by
      intro l hl
      rw [List.count_eq_zero]
      intro hmem
      exact ((emailClass_iff _).mp (hl _ hmem)).2 rfl
    refine ⟨?_, ?_, a, b ++ '.' :: c, hs, ha, b, c, rfl, hb, hc⟩
    · intro x hx
      rw [hs] at hx
      simp only [List.mem_append, List.mem_cons] at hx
      rcases hx with hx | hx | hx | hx | hx
      · exact ((emailClass_iff _).mp (haall x hx)).1
      · subst hx; decide
      · exact ((emailClass_iff _).mp (hball x hx)).1
      · subst hx; decide
      · exact ((emailClass_iff _).mp (hcall x hx)).1
    · rw [hs, List.count_append, List.count_cons_self, List.count_append,
        List.count_cons_of_ne (by decide), hcount a haall, hcount b hball, hcount c hcall]
  · rintro ⟨hws, hcount, loc, dom, hs, hloc, pre, post, hdom, hpre, hpost⟩
    subst hdom
    rw [hs, List.count_append, List.count_cons_self, List.count_append,
      List.count_cons_of_ne (by decide)] at hcount
    have h1 : loc.count '@' = 0 := by omega
    have h2 : pre.count '@' = 0 := by omega
    have h3 : post.count '@' = 0 := by omega
    rw [List.count_eq_zero] at h1 h2 h3
    have hcls : ∀ l : List Char, (∀ x ∈ l, x ∈ s.toList) → '@' ∉ l →
        ∀ x ∈ l, emailClass x = true := by
      intro l hsub hnot x hx
      rw [emailClass_iff]
      refine ⟨hws x (hsub x hx), ?_⟩
      intro hxa
      exact hnot (hxa ▸ hx)
    refine ⟨loc, pre, post, hs, hloc, hpre, hpost, ?_, ?_, ?_⟩
    · exact hcls loc (fun x hx => by rw [hs]; simp [hx]) h1
    · exact hcls pre (fun x hx => by rw [hs]; simp [hx]) h2
    · exact hcls post (fun x hx => by rw [hs]; simp [hx]) h3

/-! ## Validation before registration -/

/-- C16 (counterexample): on a system whose provider was not initialised, `register`
with the invalid email `not-an-email` fails with the initialisation error, not with
the validation error. -/
theorem register_uninitialised_counterexample :
    validateEmail "not-an-email" = false ∧
    ((AuthSystem.constructor .missing).register emptyEnv (.ok sampleUser)
      "not-an-email" "abcdef").1.success = false ∧
    ((AuthSystem.constructor .missing).register emptyEnv (.ok sampleUser)
      "not-an-email" "abcdef").1.error = some (.text "Firebase no está inicializado") ∧
    ((AuthSystem.constructor .missing).register emptyEnv (.ok sampleUser)
      "not-an-email" "abcdef").1.error ≠ some (.text "Correo inválido") := by
  refine ⟨by decide, by decide, by decide, by decide⟩

/-- C16 (amended): when the trimmed email fails `validateEmail`, or the password has
fewer than 6 code units, or the password differs from the confirmation, the
submit-register handler returns without calling `register` and leaves the
environment as it was (no provider call, no document write, same local store; no
field of the `AuthSystem` is assigned).  `register` itself, for an invalid email or a
short password, fails and leaves the environment as it was; when the provider was
initialised its error is `Correo inválido` for an invalid email and `Contraseña muy
corta` for a valid email with a short password. -/
theorem validation_failure_reaches_nothing (a : AuthSystem) (e : Env)
    (reply : Except (Option String) User) (emailField password confirm : String)
    (hbad : validateEmail (jsTrim emailField) = false ∨ jsLength password < 6 ∨
      password ≠ confirm) :
    a.submitRegister e reply emailField password confirm = (none, e) ∧
    (∀ email pw : String, validateEmail email = false ∨ jsLength pw < 6 →
      (a.register e reply email pw).1.success = false ∧
      (a.register e reply email pw).2 = e) ∧
    (a.authInitialized = true → ∀ email pw : String, validateEmail email = false →
      (a.register e reply email pw).1 = AuthResult.failure (.text "Correo inválido")) ∧
    (a.authInitialized = true → ∀ email pw : String, validateEmail email = true →
      jsLength pw < 6 →
      (a.register e reply email pw).1 = AuthResult.failure (.text "Contraseña muy corta")) := by
  refine ⟨?_, ?_, ?_, ?_⟩
  · simp only [AuthSystem.submitRegister]
    split_ifs with h1 h2 h3 h4
    · rfl
    · rfl
    · rfl
    · rfl
    · exfalso
      rcases hbad with h | h | h
      · simp [h] at h2
      · exact h4 h
      · simp [h] at h3
  · intro email pw hbad2
    cases hinit : a.authInitialized with
    | false => simp [AuthSystem.register, hinit, AuthResult.failure]
    | true =>
      rcases hbad2 with h | h
      · simp [AuthSystem.register, hinit, h, AuthResult.failure]
      · cases hv : validateEmail email <;>
          simp [AuthSystem.register, hinit, hv, h, AuthResult.failure]
  · intro hinit email pw h
    simp [AuthSystem.register, hinit, h]
  · intro hinit email pw hv h
    simp [AuthSystem.register, hinit, hv, h]

/-- Witness of `validation_failure_reaches_nothing`: a password of 5 characters. -/
theorem validation_failure_reaches_nothing_witness :
    freshGuest.submitRegister envGuestTwo (.ok sampleUser) "a@b.com" "12345" "12345"
      = (none, envGuestTwo) ∧
    (∀ email pw : String, validateEmail email = false ∨ jsLength pw < 6 →
      (freshGuest.register envGuestTwo (.ok sampleUser) email pw).1.success = false ∧
      (freshGuest.register envGuestTwo (.ok sampleUser) email pw).2 = envGuestTwo) ∧
    (freshGuest.authInitialized = true → ∀ email pw : String, validateEmail email = false →
      (freshGuest.register envGuestTwo (.ok sampleUser) email pw).1
        = AuthResult.failure (.text "Correo inválido")) ∧
    (freshGuest.authInitialized = true → ∀ email pw : String, validateEmail email = true →
      jsLength pw < 6 →
      (freshGuest.register envGuestTwo (.ok sampleUser) email pw).1
        = AuthResult.failure (.text "Contraseña muy corta")) :=
  validation_failure_reaches_nothing freshGuest envGuestTwo (.ok sampleUser)
    "a@b.com" "12345" "12345" (Or.inr (Or.inl (by decide)))

/-! ## Provider error messages -/

theorem lookup_eq_none_of_not_mem (l : List (String × String)) (k : String)
    (h : k ∉ l.map Prod.fst) : l.lookup k = none := by
  induction l with
  | nil => rfl
  | cons p t ih =>
    rcases p with ⟨k1, v1⟩
    simp only [List.map_cons, List.mem_cons, not_or] at h
    have hne : (k == k1) = false := by simpa using h.1
    simp only [List.lookup, hne]
    exact ih h.2

/-- C17: `getErrorMessage` maps each code of its table to the message of that code,
and returns the generic message for an undefined code and for every code that is
neither a key of the table nor the name of a member inherited from
`Object.prototype`; but for the code `constructor`, which is not a key of the table,
the lookup finds the inherited member and the method returns it, not the generic
message. -/
theorem getErrorMessage_inherited_member :
    (∀ p ∈ errorMessages, getErrorMessage (some p.1) = .text p.2) ∧
    (∀ code : String, code ∉ errorMessages.map Prod.fst → code ∉ objectPrototypeMembers →
      getErrorMessage (some code) = .text "Error desconocido. Intenta de nuevo.") ∧
    getErrorMessage none = .text "Error desconocido. Intenta de nuevo." ∧
    "constructor" ∉ errorMessages.map Prod.fst ∧
    getErrorMessage (some "constructor") = .inherited "constructor" ∧
    getErrorMessage (some "constructor") ≠ .text "Error desconocido. Intenta de nuevo." := by
  refine ⟨by decide, ?_, by decide, by decide, by decide, by decide⟩
  intro code hkey hmember
  have hlookup := lookup_eq_none_of_not_mem errorMessages code hkey
  have hcontains : objectPrototypeMembers.contains code = false := by
    simpa using hmember
  simp only [getErrorMessage, Option.getD_some, hlookup, hcontains]
  rfl

/-! ## Transcript: clear and export -/

theorem sendMessage_chatBox (w : World) (now : Nat) :
    (w.sendMessage now).chatBox = w.chatBox := by
  rcases w with ⟨auth, env, msgs, typing, input, box, timers⟩
  cases box <;> cases auth <;>
    simp only [World.sendMessage, World.appendMessage, World.showTypingIndicator] <;>
    split_ifs <;> rfl

theorem sendMessage_messages_without_chatBox (w : World) (now : Nat)
    (hb : w.chatBox = false) : (w.sendMessage now).messages = w.messages := by
  rcases w with ⟨auth, env, msgs, typing, input, box, timers⟩
  simp only at hb
  subst hb
  cases auth <;>
    simp only [World.sendMessage, World.appendMessage, World.showTypingIndicator,
      Bool.false_eq_true, if_false] <;>
    split_ifs <;> rfl

theorem wrappedSendMessage_chatBox (w : World) (now : Nat) :
    (w.wrappedSendMessage now).chatBox = w.chatBox := by
  cases ha : w.authSystem with
  | none => simp only [World.wrappedSendMessage, ha, sendMessage_chatBox]
  | some a =>
    simp only [World.wrappedSendMessage, ha]
    split_ifs
    · simp only [World.appendMessage]
      split_ifs <;> rfl
    · rw [sendMessage_chatBox]

theorem wrappedSendMessage_messages_without_chatBox (w : World) (now : Nat)
    (hb : w.chatBox = false) : (w.wrappedSendMessage now).messages = w.messages := by
  cases ha : w.authSystem with
  | none =>
    simp only [World.wrappedSendMessage, ha]
    exact sendMessage_messages_without_chatBox w now hb
  | some a =>
    simp only [World.wrappedSendMessage, ha]
    split_ifs
    · simp [World.appendMessage, hb]
    · exact sendMessage_messages_without_chatBox _ now hb

theorem respond_chatBox (w : World) (toLowerCase : String → String) (now : Nat) :
    (w.respond toLowerCase now).chatBox = w.chatBox := by
  cases ht : w.timers with
  | nil => simp only [World.respond, ht]
  | cons m rest =>
    simp only [World.respond, ht, World.appendMessage, World.hideTypingIndicator]
    split_ifs <;> rfl

theorem respond_messages_without_chatBox (w : World) (toLowerCase : String → String)
    (now : Nat) (hb : w.chatBox = false) :
    (w.respond toLowerCase now).messages = w.messages := by
  cases ht : w.timers with
  | nil => simp only [World.respond, ht]
  | cons m rest =>
    simp [World.respond, ht, World.appendMessage, World.hideTypingIndicator, hb]

/-- On a page without a chat box no page event changes the transcript. -/
theorem apply_messages_without_chatBox (toLowerCase : String → String) (ev : PageEvent)
    (w : World) (hb : w.chatBox = false) :
    (ev.apply toLowerCase w).messages = w.messages := by
  cases ev with
  | submit turn =>
    exact sendMessage_messages_without_chatBox { w with userInput := turn.1 } turn.2 hb
  | wrappedSubmit turn =>
    exact wrappedSendMessage_messages_without_chatBox { w with userInput := turn.1 } turn.2 hb
  | respond now => exact respond_messages_without_chatBox w toLowerCase now hb
  | clearChat => simp [PageEvent.apply, World.clearChat, hb]

/-- No page event changes the presence of the chat box. -/
theorem apply_chatBox (toLowerCase : String → String) (ev : PageEvent) (w : World) :
    (ev.apply toLowerCase w).chatBox = w.chatBox := by
  cases ev with
  | submit turn => exact sendMessage_chatBox { w with userInput := turn.1 } turn.2
  | wrappedSubmit turn => exact wrappedSendMessage_chatBox { w with userInput := turn.1 } turn.2
  | respond now => exact respond_chatBox w toLowerCase now
  | clearChat =>
    simp only [PageEvent.apply, World.clearChat]
    split_ifs <;> rfl

/-- In every state reached from the constructed application, a page without a chat
box has an empty transcript. -/
theorem runPage_messages_without_chatBox (toLowerCase : String → String)
    (evs : List PageEvent) :
    ∀ w : World, (w.chatBox = false → w.messages = []) →
      ((runPage toLowerCase evs w).chatBox = false →
        (runPage toLowerCase evs w).messages = []) := by
  induction evs with
  | nil => intro w h; exact h
  | cons ev rest ih =>
    intro w h
    apply ih (ev.apply toLowerCase w)
    intro hb
    have hb0 : w.chatBox = false := by
      rw [apply_chatBox] at hb
      exact hb
    rw [apply_messages_without_chatBox toLowerCase ev w hb0]
    exact h hb0

/-- C22: `clearChat` leaves the transcript empty on every page that has its chat box,
and in every state the application reaches from its construction through submissions
(original or wrapped), responses and earlier clears, whatever the auth system, the
environment, the input and the page are; it changes no other field. -/
theorem clearChat_empties_transcript :
    (∀ w : World, w.chatBox = true → w.clearChat.messages = []) ∧
    (∀ (toLowerCase : String → String) (auth : Option AuthSystem) (e : Env)
      (input : String) (chatBox : Bool) (evs : List PageEvent),
      (runPage toLowerCase evs (World.constructed auth e input chatBox)).clearChat.messages
        = []) ∧
    (∀ w : World, w.clearChat.authSystem = w.authSystem ∧ w.clearChat.env = w.env ∧
      w.clearChat.timers = w.timers ∧ w.clearChat.userInput = w.userInput) := by
  refine ⟨?_, ?_, ?_⟩
  · intro w hb
    simp [World.clearChat, hb]
  · intro toLowerCase auth e input chatBox evs
    have h := runPage_messages_without_chatBox toLowerCase evs
      (World.constructed auth e input chatBox) (fun _ => rfl)
    cases hb : (runPage toLowerCase evs (World.constructed auth e input chatBox)).chatBox with
    | false =>
      simp only [World.clearChat, hb]
      exact h hb
    | true => simp [World.clearChat, hb]
  · intro w
    cases hb : w.chatBox <;> simp [World.clearChat, hb]

theorem intercalate_go_eq_foldl (sep : String) (l : List String) :
    ∀ acc : String, String.intercalate.go acc sep l = l.foldl (fun r y => r ++ sep ++ y) acc := by
  induction l with
  | nil => intro acc; rfl
  | cons x xs ih =>
    intro acc
    simp only [String.intercalate.go, List.foldl_cons]
    exact ih _

/-- The join of JavaScript is the intercalation of the separator. -/
theorem jsJoin_eq_intercalate (sep : String) (l : List String) :
    jsJoin sep l = String.intercalate sep l := by
  cases l with
  | nil => rfl
  | cons x xs =>
    simp only [jsJoin, String.intercalate]
    exact (intercalate_go_eq_foldl sep xs x).symm

/-- C23: for a non-empty transcript `exportChat` produces the entries in order, joined
by a blank line, each rendered as `[time] label: content` with the label `Usuario`
for the sender `user` and `AndreaAI` for every other sender; for an empty transcript
it produces no text.  A transcript of one entry gives that line alone, and each
further entry adds a blank line and its line at the end. -/
theorem exportChat_format (w : World) (toLocaleTimeString : Nat → String) :
    (w.messages = [] → w.exportChat toLocaleTimeString = none) ∧
    (w.messages ≠ [] →
      w.exportChat toLocaleTimeString
        = some (exportTextSpec toLocaleTimeString w.messages)) ∧
    (∀ m : Message, exportTextSpec toLocaleTimeString [m] =
      "[" ++ toLocaleTimeString m.timestamp ++ "] " ++
        (if m.sender = "user" then "Usuario" else "AndreaAI") ++ ": " ++ m.content) ∧
    (∀ (ms : List Message) (m : Message), ms ≠ [] →
      exportTextSpec toLocaleTimeString (ms ++ [m]) =
        exportTextSpec toLocaleTimeString ms ++ "\n\n" ++
          exportTextSpec toLocaleTimeString [m]) := by
  have hspec : ∀ ms : List Message, exportTextSpec toLocaleTimeString ms =
      jsJoin "\n\n" (ms.map (exportLine toLocaleTimeString)) := by
    intro ms
    rw [jsJoin_eq_intercalate]
    rfl
  refine ⟨?_, ?_, ?_, ?_⟩
  · intro h
    simp [World.exportChat, h]
  · intro h
    have hlen : w.messages.length ≠ 0 := by
      intro h0
      exact h (List.length_eq_zero.mp h0)
    simp only [World.exportChat, hlen, if_false]
    rw [hspec]
  · intro m
    rw [hspec]
    rfl
  · intro ms m hne
    rw [hspec, hspec, hspec]
    cases ms with
    | nil => exact absurd rfl hne
    | cons x xs =>
      simp only [List.cons_append, List.map_cons, List.map_append, List.map_nil, jsJoin,
        List.foldl_append, List.foldl_cons, List.foldl_nil]

/-! ## The wrapper installed by `integrateAuthWithApp` -/

/-- C25: a fresh guest with limit 3 sends through the wrapped `sendMessage`.  The
first call leaves the count at 2, not 1: the wrapper increments and the original
method increments again.  The second call leaves the count at 3 and is answered with
the upsell of the original method, without a user entry or a scheduled response.  The
third call is denied by the wrapper.  One turn is completed, not three. -/
theorem wrapper_counts_twice :
    freshPage.count = some (.int 0) ∧
    (freshPage.wrappedSubmit ("hola", 1)).count = some (.int 2) ∧
    (freshPage.wrappedSubmit ("hola", 1)).timers = ["hola"] ∧
    ((freshPage.wrappedSubmit ("hola", 1)).wrappedSubmit ("ayuda", 2)).count
      = some (.int 3) ∧
    ((freshPage.wrappedSubmit ("hola", 1)).wrappedSubmit ("ayuda", 2)).timers = ["hola"] ∧
    ((freshPage.wrappedSubmit ("hola", 1)).wrappedSubmit ("ayuda", 2)).messages =
      [{ sender := "user", content := "hola", timestamp := 1 },
       { sender := "ai", content := upsellMessage, timestamp := 2 }] ∧
    (((freshPage.wrappedSubmit ("hola", 1)).wrappedSubmit ("ayuda", 2)).wrappedSubmit
        ("clear", 3)).messages =
      [{ sender := "user", content := "hola", timestamp := 1 },
       { sender := "ai", content := upsellMessage, timestamp := 2 },
       { sender := "ai", content := wrapperUpsellMessage, timestamp := 3 }] ∧
    (((freshPage.wrappedSubmit ("hola", 1)).wrappedSubmit ("ayuda", 2)).wrappedSubmit
        ("clear", 3)).timers = ["hola"] := by
  refine ⟨by decide, by decide, by decide, by decide, by decide, rfl, rfl, by decide⟩

/-- C26: with the wrapper installed, a fresh guest sends an input of three blanks: the
count goes from 0 to 1 and `1` is written under the guest key, while the original
`sendMessage` changes nothing on the same page; a guest at the limit who sends the
same input gets the upsell entry of the wrapper appended to the transcript. -/
theorem wrapper_counts_blank_input :
    jsTrim blankPage.userInput = "" ∧
    blankPage.count = some (.int 0) ∧
    blankPage.env.getItem guestKey = none ∧
    (blankPage.wrappedSendMessage 1).count = some (.int 1) ∧
    (blankPage.wrappedSendMessage 1).env.getItem guestKey = some "1" ∧
    (blankPage.sendMessage 1).count = some (.int 0) ∧
    (blankPage.sendMessage 1).env.getItem guestKey = none ∧
    (blankPage.sendMessage 1).messages = [] ∧
    ((pageWith guestAtLimit emptyEnv "   ").wrappedSendMessage 1).messages =
      [{ sender := "ai", content := wrapperUpsellMessage, timestamp := 1 }] := by
  refine ⟨by decide, by decide, by decide, by decide, by decide, by decide, by decide,
    by decide, rfl⟩

/-! ## Operations without the identity provider -/

/-- C27: when `authInitialized` is false, `register` and `login` return a failure with
the error `Firebase no está inicializado` for every email and password, valid or not,
and whatever the provider would answer; they and `logout` leave the environment as it
was (no call is logged, same local store and documents), and as events they leave the
whole state, so `user`, `conversationCount` and `isPremium`, as it was. -/
theorem uninitialised_refuses (a : AuthSystem) (e : Env)
    (reply : Except (Option String) User) (email password : String)
    (hinit : a.authInitialized = false) :
    a.register e reply email password
      = (AuthResult.failure (.text "Firebase no está inicializado"), e) ∧
    a.login e reply email password
      = (AuthResult.failure (.text "Firebase no está inicializado"), e) ∧
    (a.register e reply email password).1.success = false ∧
    (a.login e reply email password).1.success = false ∧
    a.logout e = e ∧
    (AuthEvent.register reply email password).apply (a, e) = (a, e) ∧
    (AuthEvent.login reply email password).apply (a, e) = (a, e) ∧
    AuthEvent.logout.apply (a, e) = (a, e) := by
  have hr : a.register e reply email password
      = (AuthResult.failure (.text "Firebase no está inicializado"), e) := by
    simp [AuthSystem.register, hinit]
  have hl : a.login e reply email password
      = (AuthResult.failure (.text "Firebase no está inicializado"), e) := by
    simp [AuthSystem.login, hinit]
  have ho : a.logout e = e := by
    simp [AuthSystem.logout, hinit]
  refine ⟨hr, hl, ?_, ?_, ho, ?_, ?_, ?_⟩
  · rw [hr]; rfl
  · rw [hl]; rfl
  · simp only [AuthEvent.apply, hr]
  · simp only [AuthEvent.apply, hl]
  · simp only [AuthEvent.apply, ho]

/-- Witness of `uninitialised_refuses`: the system constructed without Firebase. -/
theorem uninitialised_refuses_witness :
    (AuthSystem.constructor .missing).register envGuestTwo (.ok sampleUser) "a@b.com" "abcdef"
      = (AuthResult.failure (.text "Firebase no está inicializado"), envGuestTwo) ∧
    (AuthSystem.constructor .missing).login envGuestTwo (.ok sampleUser) "a@b.com" "abcdef"
      = (AuthResult.failure (.text "Firebase no está inicializado"), envGuestTwo) ∧
    ((AuthSystem.constructor .missing).register envGuestTwo (.ok sampleUser)
      "a@b.com" "abcdef").1.success = false ∧
    ((AuthSystem.constructor .missing).login envGuestTwo (.ok sampleUser)
      "a@b.com" "abcdef").1.success = false ∧
    (AuthSystem.constructor .missing).logout envGuestTwo = envGuestTwo ∧
    (AuthEvent.register (.ok sampleUser) "a@b.com" "abcdef").apply
      (AuthSystem.constructor .missing, envGuestTwo)
      = (AuthSystem.constructor .missing, envGuestTwo) ∧
    (AuthEvent.login (.ok sampleUser) "a@b.com" "abcdef").apply
      (AuthSystem.constructor .missing, envGuestTwo)
      = (AuthSystem.constructor .missing, envGuestTwo) ∧
    AuthEvent.logout.apply (AuthSystem.constructor .missing, envGuestTwo)
      = (AuthSystem.constructor .missing, envGuestTwo) :=
  uninitialised_refuses (AuthSystem.constructor .missing) envGuestTwo (.ok sampleUser)
    "a@b.com" "abcdef" rfl

/-! ## The count as a non-negative integer -/

/-- After `k` calls of `incrementConversationCount` an integer count `n` is `n + k`. -/
theorem runEvents_increments (k : Nat) :
    ∀ (s : AuthSystem × Env) (n : Int), s.1.conversationCount = .int n →
      (runEvents (List.replicate k .incrementConversationCount) s).1.conversationCount
        = .int (n + k) := by
  induction k with
  | zero =>
    intro s n h
    simpa [runEvents] using h
  | succ k ih =>
    intro s n h
    have hstep : (AuthEvent.incrementConversationCount.apply s).1.conversationCount
        = .int (n + 1) := by
      simp only [AuthEvent.apply, (incrementConversationCount_fields s.1 s.2).2.2, h,
        JSNum.succ]
    have := ih (AuthEvent.incrementConversationCount.apply s) (n + 1) hstep
    simp only [List.replicate_succ, runEvents, List.foldl_cons] at this ⊢
    rw [this]
    push_cast
    congr 1
    ring

/-- C21 (counterexample): with `-5` stored under the guest key,
`loadLocalConversationCount` leaves the count at `-5`, which is below 0. -/
theorem loadLocalConversationCount_negative_counterexample :
    envGuestNegative.getItem guestKey = some "-5" ∧
    (freshGuest.loadLocalConversationCount envGuestNegative).conversationCount = .int (-5) ∧
    ((-5 : Int) < 0) := by
  refine ⟨by decide, by decide, by decide⟩

/-- C21 (amended): within the range where numbers are exact, for every `AuthSystem`,
guest or signed in: when the guest key is absent or holds the rendering of a
non-negative integer, `loadLocalConversationCount` followed by `k` calls of
`incrementConversationCount` leaves that integer (0 when absent) plus `k`; and when
the document of the signed-in user exists with a count that is absent, `NaN` or a
non-negative integer, `loadUserData` followed by `k` calls leaves a non-negative
integer plus `k`.  In both cases the count is an integer that is at least 0. -/
theorem count_nonneg_after_load (a : AuthSystem) (e : Env) (k : Nat) :
    (∀ stored : Option Nat,
      e.getItem guestKey = stored.map (fun (n : Nat) => (JSNum.int (n : Int)).toJSString) →
      stored.getD 0 + k < 2 ^ 53 →
      (runEvents (List.replicate k .incrementConversationCount)
          (a.loadLocalConversationCount e, e)).1.conversationCount
        = .int (((stored.getD 0 + k : Nat) : Int))) ∧
    (∀ (u : User) (d : UserDoc), a.authInitialized = true → a.user = some u →
      e.dbOnline = true → e.db u.uid = some d → k < 2 ^ 53 →
      (∀ v : Int, d.conversationCount = some (.int v) → 0 ≤ v ∧ v + k < 2 ^ 53) →
      ∃ n : Nat, n + k < 2 ^ 53 ∧
        (a.loadUserData e).1.conversationCount = .int (n : Int) ∧
        (runEvents (List.replicate k .incrementConversationCount)
          (a.loadUserData e)).1.conversationCount = .int (((n + k : Nat) : Int))) := by
  constructor
  · intro stored hstore _
    have hload : (a.loadLocalConversationCount e).conversationCount
        = .int ((stored.getD 0 : Nat) : Int) := by
      cases stored with
      | none =>
        have h0 : e.getItem guestKey = none := hstore
        simp [AuthSystem.loadLocalConversationCount, h0, jsTruthy]
      | some n =>
        have h0 : e.getItem guestKey = some (JSNum.int (n : Int)).toJSString := hstore
        have hr := parseInt_toJSString n
        simp only [AuthSystem.loadLocalConversationCount, h0, hr.2, if_true,
          Option.getD_some, hr.1]
    have := runEvents_increments k (a.loadLocalConversationCount e, e) _ hload
    rw [this]
    push_cast
    rfl
  · intro u d hinit hu honline hdoc hk hcount
    have hload := (loadUserData_existing_document a e u d hinit hu honline hdoc).2.1
    have hn : ∃ n : Nat, n + k < 2 ^ 53 ∧
        JSNum.orZero d.conversationCount = .int (n : Int) := by
      cases hc : d.conversationCount with
      | none => exact ⟨0, by omega, rfl⟩
      | some x =>
        cases x with
        | nan => exact ⟨0, by omega, rfl⟩
        | int v =>
          obtain ⟨hv, hb⟩ := hcount v hc
          refine ⟨v.toNat, ?_, by simp [JSNum.orZero, Int.toNat_of_nonneg hv]⟩
          have hcast : ((v.toNat : Nat) : Int) = v := Int.toNat_of_nonneg hv
          have : ((v.toNat + k : Nat) : Int) < ((2 ^ 53 : Nat) : Int) := by
            push_cast
            rw [hcast]
            exact hb
          exact_mod_cast this
    obtain ⟨n, hnb, hn⟩ := hn
    refine ⟨n, hnb, hload.trans hn, ?_⟩
    have := runEvents_increments k (a.loadUserData e) _ (hload.trans hn)
    rw [this]
    push_cast
    rfl

/-- Witness of `count_nonneg_after_load`: a guest with the stored count 2, and the
sample account with a document count of 5, each followed by four increments. -/
theorem count_nonneg_after_load_witness :
    (runEvents (List.replicate 4 .incrementConversationCount)
        (freshGuest.loadLocalConversationCount envGuestTwo,
          envGuestTwo)).1.conversationCount
      = .int ((((some 2 : Option Nat).getD 0 + 4 : Nat) : Int)) ∧
    (∃ n : Nat, n + 4 < 2 ^ 53 ∧
      (signedInWithGuestCount.loadUserData envWithDoc).1.conversationCount = .int (n : Int) ∧
      (runEvents (List.replicate 4 .incrementConversationCount)
        (signedInWithGuestCount.loadUserData envWithDoc)).1.conversationCount
        = .int (((n + 4 : Nat) : Int))) :=
  ⟨(count_nonneg_after_load freshGuest envGuestTwo 4).1 (some 2) rfl (by norm_num),
   (count_nonneg_after_load signedInWithGuestCount envWithDoc 4).2 sampleUser
    { newUserDoc "a@b.com" with conversationCount := some (.int 5) } rfl rfl rfl rfl
    (by norm_num) (by intro v hv; cases hv; norm_num)⟩

/-! ## Ordering of the increment and the response -/

/-- An allowed call of `sendMessage`, for any identity: the auth system and the
environment are those `incrementConversationCount` returns, the response is put last
among the pending ones, and on a page with a chat box only the user entry is
appended. -/
theorem sendMessage_allowed (w : World) (a : AuthSystem) (now : Nat)
    (ha : w.authSystem = some a) (hc : a.canChat = true)
    (hinput : jsTrim w.userInput ≠ "") :
    (w.sendMessage now).authSystem = some (a.incrementConversationCount w.env).1 ∧
    (w.sendMessage now).env = (a.incrementConversationCount w.env).2 ∧
    (w.sendMessage now).timers = w.timers ++ [jsTrim w.userInput] ∧
    (w.sendMessage now).chatBox = w.chatBox ∧
    (w.chatBox = true → (w.sendMessage now).messages =
      w.messages ++ [{ sender := "user", content := jsTrim w.userInput, timestamp := now }]) := by
  have hne : (jsTrim w.userInput).data ≠ [] := data_ne_nil_of_ne_empty hinput
  cases hb : w.chatBox <;>
    simp [World.sendMessage, hne, ha, hc, World.appendMessage, World.showTypingIndicator, hb]

/-- The response callback touches neither the auth system nor the environment. -/
theorem respond_frame (w : World) (toLowerCase : String → String) (now : Nat) :
    (w.respond toLowerCase now).authSystem = w.authSystem ∧
    (w.respond toLowerCase now).env = w.env := by
  cases ht : w.timers with
  | nil => simp only [World.respond, ht, and_self]
  | cons m rest =>
    simp only [World.respond, ht, World.appendMessage, World.hideTypingIndicator]
    split_ifs <;> exact ⟨rfl, rfl⟩

/-- The method `clearChat` touches neither the auth system nor the environment. -/
theorem clearChat_frame (w : World) :
    w.clearChat.authSystem = w.authSystem ∧ w.clearChat.env = w.env := by
  simp only [World.clearChat]
  split_ifs <;> exact ⟨rfl, rfl⟩

/-- C24: in an allowed turn of `sendMessage`, when the call has returned the count
has advanced in memory and the persistence attempt is made (the guest key is written
for a guest, one `update` call is logged for a signed-in user), while the transcript
has gained only the user entry and the response is still pending.  The response is
appended only by the later callback, which takes it from the pending ones and leaves
the auth system and the environment as the increment left them; with nothing
pending no response is appended. -/
theorem response_follows_increment (w : World) (a : AuthSystem) (now later : Nat)
    (toLowerCase : String → String) (ha : w.authSystem = some a)
    (hc : a.canChat = true) (hinput : jsTrim w.userInput ≠ "") :
    ((w.sendMessage now).count = some a.conversationCount.succ ∧
      (w.sendMessage now).env = (a.incrementConversationCount w.env).2 ∧
      (a.user = none → (w.sendMessage now).env.getItem guestKey
        = some a.conversationCount.succ.toJSString) ∧
      (∀ u : User, a.user = some u → a.authInitialized = true →
        (w.sendMessage now).env.calls = w.env.calls ++ [.docUpdate u.uid])) ∧
    ((w.sendMessage now).timers = w.timers ++ [jsTrim w.userInput] ∧
      (w.chatBox = true → (w.sendMessage now).messages =
        w.messages ++ [{ sender := "user", content := jsTrim w.userInput, timestamp := now }])) ∧
    (w.chatBox = true → w.timers = [] →
      ((w.sendMessage now).respond toLowerCase later).messages =
        w.messages ++
          [{ sender := "user", content := jsTrim w.userInput, timestamp := now },
           { sender := "ai", content := generateResponse toLowerCase (jsTrim w.userInput),
             timestamp := later }] ∧
      ((w.sendMessage now).respond toLowerCase later).timers = []) ∧
    (((w.sendMessage now).respond toLowerCase later).authSystem = (w.sendMessage now).authSystem ∧
      ((w.sendMessage now).respond toLowerCase later).env = (w.sendMessage now).env) ∧
    (∀ v : World, v.timers = [] → v.respond toLowerCase later = v) := by
  obtain ⟨h1, h2, h3, h4, h5⟩ := sendMessage_allowed w a now ha hc hinput
  obtain ⟨f1, f2, f3⟩ := incrementConversationCount_fields a w.env
  refine ⟨⟨?_, h2, ?_, ?_⟩, ⟨h3, h5⟩, ?_, respond_frame _ _ _, ?_⟩
  · simp only [World.count, h1, Option.map_some', f3]
  · intro hu
    rw [h2]
    rcases a with ⟨user, count, limit, premium, init⟩
    simp only at hu
    subst hu
    simp [AuthSystem.incrementConversationCount, Env.setItem, Env.getItem]
  · intro u hu hinit
    rw [h2]
    rcases a with ⟨user, count, limit, premium, init⟩
    simp only at hu hinit
    subst hu hinit
    simp only [AuthSystem.incrementConversationCount, Env.docUpdate]
    cases hon : w.env.dbOnline with
    | false => simp [Env.setItem, Env.record]
    | true =>
      cases hdb : w.env.db u.uid with
      | none => simp [Env.setItem, Env.record]
      | some d => simp [Env.record]
  · intro hb hidle
    have ht : (w.sendMessage now).timers = [jsTrim w.userInput] := by
      rw [h3, hidle]
      rfl
    have hb2 : (w.sendMessage now).chatBox = true := h4.trans hb
    simp [World.respond, ht, World.appendMessage, World.hideTypingIndicator, hb2, h5 hb]
  · intro v hv
    simp only [World.respond, hv]

/-- Witness of `response_follows_increment`: the first message of a fresh guest. -/
theorem response_follows_increment_witness :
    ((helloPage.sendMessage 2).count = some freshGuest.conversationCount.succ ∧
      (helloPage.sendMessage 2).env = (freshGuest.incrementConversationCount helloPage.env).2 ∧
      (freshGuest.user = none → (helloPage.sendMessage 2).env.getItem guestKey
        = some freshGuest.conversationCount.succ.toJSString) ∧
      (∀ u : User, freshGuest.user = some u → freshGuest.authInitialized = true →
        (helloPage.sendMessage 2).env.calls = helloPage.env.calls ++ [.docUpdate u.uid])) ∧
    ((helloPage.sendMessage 2).timers = helloPage.timers ++ [jsTrim helloPage.userInput] ∧
      (helloPage.chatBox = true → (helloPage.sendMessage 2).messages =
        helloPage.messages ++
          [{ sender := "user", content := jsTrim helloPage.userInput, timestamp := 2 }])) ∧
    (helloPage.chatBox = true → helloPage.timers = [] →
      ((helloPage.sendMessage 2).respond asciiLower 3).messages =
        helloPage.messages ++
          [{ sender := "user", content := jsTrim helloPage.userInput, timestamp := 2 },
           { sender := "ai", content := generateResponse asciiLower (jsTrim helloPage.userInput),
             timestamp := 3 }] ∧
      ((helloPage.sendMessage 2).respond asciiLower 3).timers = []) ∧
    (((helloPage.sendMessage 2).respond asciiLower 3).authSystem
        = (helloPage.sendMessage 2).authSystem ∧
      ((helloPage.sendMessage 2).respond asciiLower 3).env = (helloPage.sendMessage 2).env) ∧
    (∀ v : World, v.timers = [] → v.respond asciiLower 3 = v) :=
  response_follows_increment helloPage freshGuest 2 3 asciiLower rfl (by decide) (by decide)

/-! ## The guest count stays within the limit -/

theorem guestWithin_of_eq {start : Option String} {w v : World}
    (ha : v.authSystem = w.authSystem) (he : v.env = w.env) (h : GuestWithin start w) :
    GuestWithin start v := by
  obtain ⟨j, ⟨a, h1, h2⟩, hj, hs⟩ := h
  exact ⟨j, ⟨a, ha.trans h1, h2⟩, hj, by rw [he]; exact hs⟩

theorem sendMessage_blank (w : World) (now : Nat) (h : jsTrim w.userInput = "") :
    w.sendMessage now = w := by
  simp [World.sendMessage, h]

theorem appendMessage_frame (w : World) (sender content : String) (now : Nat) :
    (w.appendMessage sender content now).authSystem = w.authSystem ∧
    (w.appendMessage sender content now).env = w.env := by
  simp only [World.appendMessage]
  split_ifs <;> exact ⟨rfl, rfl⟩

theorem incrementConversationCount_guest (a : AuthSystem) (e : Env) (hu : a.user = none) :
    a.incrementConversationCount e =
      ({ a with conversationCount := a.conversationCount.succ },
        e.setItem guestKey a.conversationCount.succ.toJSString) := by
  rcases a with ⟨user, count, limit, premium, init⟩
  simp only at hu
  subst hu
  rfl

/-- A guest below the limit, after one increment, is still within the limit and the
guest key holds the new count. -/
theorem guestWithin_increment (start : Option String) (w : World) (a : AuthSystem)
    (j : Nat)
    (hu : a.user = none) (hp : a.isPremium = false) (hl : a.maxFreeConversations = 3)
    (hcount : a.conversationCount = .int (j : Int)) (hlt : j < 3) :
    GuestWithin start
      { w with authSystem := some (a.incrementConversationCount w.env).1,
               env := (a.incrementConversationCount w.env).2 } := by
  rw [incrementConversationCount_guest a w.env hu]
  refine ⟨j + 1, ⟨_, rfl, hu, hp, hl, ?_⟩, by omega, Or.inr ?_⟩
  · simp only [hcount, JSNum.succ]
    push_cast
    rfl
  · simp only [hcount, JSNum.succ, Env.getItem, Env.setItem, if_true]
    push_cast
    rfl

/-- A submission through the original `sendMessage` keeps the guest invariant. -/
theorem submit_guestWithin (start : Option String) (w : World) (turn : String × Nat)
    (h : GuestWithin start w) :
    GuestWithin start (w.submit turn) := by
  by_cases hblank : jsTrim turn.1 = ""
  · have heq : w.submit turn = { w with userInput := turn.1 } :=
      sendMessage_blank { w with userInput := turn.1 } turn.2 hblank
    rw [heq]
    exact guestWithin_of_eq rfl rfl h
  · obtain ⟨j, ⟨a, ha, hu, hp, hl, hcount⟩, hj, hs⟩ := h
    by_cases hlt : j < 3
    · have hc : a.canChat = true := by
        simp [AuthSystem.canChat, hu, hp, hcount, hl, JSNum.lt]
        omega
      obtain ⟨h1, h2, _, _, _⟩ := submit_allowed w a turn ha hu hc hblank
      have hinc := guestWithin_increment start w a j hu hp hl hcount hlt
      rw [incrementConversationCount_guest a w.env hu] at hinc
      exact guestWithin_of_eq h1 h2 hinc
    · have hc : a.canChat = false := by
        simp [AuthSystem.canChat, hu, hp, hcount, hl, JSNum.lt]
        omega
      obtain ⟨h1, h2, _, _, _⟩ := submit_denied w a turn ha hc hblank
      exact guestWithin_of_eq (h1.trans ha.symm) h2 ⟨j, ⟨a, ha, hu, hp, hl, hcount⟩, hj, hs⟩

/-- A submission through the wrapper keeps the guest invariant. -/
theorem wrappedSubmit_guestWithin (start : Option String) (w : World)
    (turn : String × Nat) (h : GuestWithin start w) :
    GuestWithin start (w.wrappedSubmit turn) := by
  obtain ⟨j, ⟨a, ha, hu, hp, hl, hcount⟩, hj, hs⟩ := h
  by_cases hlt : j < 3
  · have hc : a.canChat = true := by
      simp [AuthSystem.canChat, hu, hp, hcount, hl, JSNum.lt]
      omega
    have heq : w.wrappedSubmit turn =
        World.submit { w with authSystem := some (a.incrementConversationCount w.env).1,
                              env := (a.incrementConversationCount w.env).2 } turn := by
      simp [World.wrappedSubmit, World.wrappedSendMessage, ha, hc, World.submit]
    rw [heq]
    exact submit_guestWithin start _ turn (guestWithin_increment start w a j hu hp hl hcount hlt)
  · have hc : a.canChat = false := by
      simp [AuthSystem.canChat, hu, hp, hcount, hl, JSNum.lt]
      omega
    have heq : w.wrappedSubmit turn =
        World.appendMessage { w with userInput := turn.1 } "ai" wrapperUpsellMessage turn.2 := by
      simp [World.wrappedSubmit, World.wrappedSendMessage, ha, hc]
    rw [heq]
    obtain ⟨f1, f2⟩ := appendMessage_frame { w with userInput := turn.1 } "ai"
      wrapperUpsellMessage turn.2
    exact guestWithin_of_eq f1 f2 ⟨j, ⟨a, ha, hu, hp, hl, hcount⟩, hj, hs⟩

/-- Every page event keeps the guest invariant. -/
theorem apply_guestWithin (start : Option String) (toLowerCase : String → String)
    (ev : PageEvent) (w : World)
    (h : GuestWithin start w) : GuestWithin start (ev.apply toLowerCase w) := by
  cases ev with
  | submit turn => exact submit_guestWithin start w turn h
  | wrappedSubmit turn => exact wrappedSubmit_guestWithin start w turn h
  | respond now =>
    obtain ⟨f1, f2⟩ := respond_frame w toLowerCase now
    exact guestWithin_of_eq f1 f2 h
  | clearChat =>
    have hf := (clearChat_frame w)
    exact guestWithin_of_eq hf.1 hf.2 h

/-- Every sequence of page events keeps the guest invariant. -/
theorem runPage_guestWithin (start : Option String) (toLowerCase : String → String)
    (evs : List PageEvent) :
    ∀ w : World, GuestWithin start w → GuestWithin start (runPage toLowerCase evs w) := by
  induction evs with
  | nil => intro w h; exact h
  | cons ev rest ih =>
    intro w h
    exact ih _ (apply_guestWithin start toLowerCase ev w h)

/-- From a fresh guest (no user, `isPremium` false, limit 3, count 0), whatever the
local store holds, after any sequence of submissions with arbitrary input through the
original `sendMessage` or through the wrapper, interleaved or not with responses and
clears, the count is an integer `j` with `0 ≤ j ≤ maxFreeConversations = 3`; the guest
key holds what it held at the start while the count is still 0, and the rendering
of `j` from the first allowed turn on.  When the key was absent or held `0` at the
start, the stored value, when present, is the rendering of `j`, which `parseInt`
reads back as `j`. -/
theorem guest_count_within_limit (toLowerCase : String → String) (w : World)
    (evs : List PageEvent) (hfresh : GuestAt w 0) :
    ∃ (a : AuthSystem) (j : Nat),
      (runPage toLowerCase evs w).authSystem = some a ∧
      a.conversationCount = .int (j : Int) ∧ (0 : Int) ≤ (j : Int) ∧
      (j : Int) ≤ a.maxFreeConversations ∧ a.maxFreeConversations = 3 ∧
      ((j = 0 ∧
          (runPage toLowerCase evs w).env.getItem guestKey = w.env.getItem guestKey) ∨
        ((runPage toLowerCase evs w).env.getItem guestKey
            = some (JSNum.int (j : Int)).toJSString ∧
          parseInt (JSNum.int (j : Int)).toJSString = a.conversationCount)) ∧
      ((w.env.getItem guestKey = none ∨ w.env.getItem guestKey = some "0") →
        ∀ s : String, (runPage toLowerCase evs w).env.getItem guestKey = some s →
          s = (JSNum.int (j : Int)).toJSString ∧ parseInt s = a.conversationCount) := by
  have hstart : GuestWithin (w.env.getItem guestKey) w :=
    ⟨0, hfresh, by omega, Or.inl ⟨rfl, rfl⟩⟩
  obtain ⟨j, ⟨a, ha, _, _, hl, hcount⟩, hj, hs⟩ :=
    runPage_guestWithin (w.env.getItem guestKey) toLowerCase evs w hstart
  have hparse : parseInt (JSNum.int (j : Int)).toJSString = a.conversationCount := by
    rw [hcount]
    exact (parseInt_toJSString j).1
  refine ⟨a, j, ha, hcount, by omega, ?_, hl, ?_, ?_⟩
  · rw [hl]
    exact_mod_cast hj
  · rcases hs with ⟨h0, hs⟩ | hs
    · exact Or.inl ⟨h0, hs⟩
    · exact Or.inr ⟨hs, hparse⟩
  · intro hstore s hsome
    have hrender : (runPage toLowerCase evs w).env.getItem guestKey
        = some (JSNum.int (j : Int)).toJSString := by
      rcases hs with ⟨h0, hs⟩ | hs
      · rcases hstore with hn | hz
        · rw [hs, hn] at hsome
          exact absurd hsome (by simp)
        · rw [hs, hz, h0]
          rfl
      · exact hs
    rw [hrender] at hsome
    have heq : s = (JSNum.int (j : Int)).toJSString := (Option.some.inj hsome).symm
    exact ⟨heq, by rw [heq]; exact hparse⟩

/-- C28: the page at startup with the Firebase SDK missing and the guest count 3 in
the local store is a fresh guest (no user, `isPremium` false, limit 3, count 0).
After a submission of blank input through the original `sendMessage` the count is
within 0 and 3, but the value stored under the guest key is 3 while the in-memory
count is 0.  The first allowed message then writes the count 1 over it. -/
theorem guest_store_stale_at_startup :
    (pageWithoutFirebase.authSystem.map (fun a => a.user) = some none ∧
      pageWithoutFirebase.authSystem.map (fun a => a.isPremium) = some false ∧
      pageWithoutFirebase.authSystem.map (fun a => a.maxFreeConversations) = some 3 ∧
      pageWithoutFirebase.count = some (.int 0)) ∧
    (runPage asciiLower [.submit ("   ", 1)] pageWithoutFirebase).count = some (.int 0) ∧
    (runPage asciiLower [.submit ("   ", 1)] pageWithoutFirebase).env.getItem guestKey
      = some "3" ∧
    parseInt "3" = .int 3 ∧
    (runPage asciiLower [.submit ("   ", 1), .submit ("hola", 2)]
      pageWithoutFirebase).count = some (.int 1) ∧
    (runPage asciiLower [.submit ("   ", 1), .submit ("hola", 2)]
      pageWithoutFirebase).env.getItem guestKey = some "1" := by
  refine ⟨⟨by decide, by decide, by decide, by decide⟩, by decide, by decide, by decide,
    by decide, by decide⟩

end AndreaAI
